

import Mathlib

/-!
Verification of the permissions-broker request/session lifecycle engine.

This file gives a shallow embedding, in Lean, of the core data model and
operations of the broker (proxy-request canonicalization, creation,
decision and execution; the always-allow rule store; the Git smart-HTTP
session proxy with its pkt-line push-safety gate), translated directly
from the TypeScript sources:

  - src/proxy/url.ts          (validateUpstreamUrl, canonicalizeUrl)
  - src/proxy/requests.ts     (createProxyRequest, decideProxyRequest)
  - src/proxy/alwaysAllow.ts  (getAlwaysAllowKey, hasAlwaysAllowRule)
  - src/proxy/readLimit.ts    (readBodyWithLimit)
  - src/web/proxy.ts          (the /request and /requests/:id/execute handlers)
  - src/git/pktline.ts        (parseReceivePackCommands, isAllZeroSha,
                               extractSymrefHeadFromInfoRefs)
  - src/git/stream.ts         (readPrefixUntilFlush, stream replay)
  - src/git/sessions.ts       (session rows, markGitSessionUsed,
                               storeDefaultBranchRef)
  - src/web/git.ts            (the Git wire-proxy handler)

Modelling conventions: JavaScript strings are Lean `String`s (byte streams
of the Git wire protocol are `List Char`, chunk sequences are
`List (List Char)`); `localeCompare` is modelled as code-point
lexicographic comparison; machine time is an `Int` of milliseconds and
`Date.parse` results are `Option Int` (`none` for a non-finite parse);
SQL tables are Lean lists of row structures and each `UPDATE ... WHERE`
is a guarded `List.map`; the SHA-256 digest is an explicit function
parameter (its internals are irrelevant to every property proved here).
-/

namespace PermBroker

/-! ## Generic string and list helpers -/

/-- Last `n` elements of a list (JavaScript `slice(-n)` on a string). -/
def lastN (l : List Char) (n : Nat) : List Char :=
  l.drop (l.length - n)

/-- ASCII whitespace recognizer, modelling the characters JavaScript
`String.prototype.trim` removes on the ASCII range (the wire-protocol
inputs handled here are ASCII). -/
def isJsSpace (c : Char) : Bool :=
  c = ' ' || c = '\t' || c = '\n' || c = '\r' || c = '\x0b' || c = '\x0c'

/-- JavaScript `String.prototype.trim` on a char list. -/
def jsTrim (l : List Char) : List Char :=
  (l.dropWhile isJsSpace).reverse.dropWhile isJsSpace |>.reverse

/-- JavaScript `split(sep)` for one-char separators: splits at every
occurrence, keeping empty fragments. -/
def splitOnChar (sep : Char) (l : List Char) : List (List Char) :=
  match l with
  | [] => [[]]
  | c :: rest =>
    let r := splitOnChar sep rest
    if c = sep then [] :: r
    else match r with
      | [] => [[c]]
      | f :: fs => (c :: f) :: fs

/-- ASCII lower-casing of one character (`String.prototype.toLowerCase`
on the ASCII range the broker's header names live in). -/
def jsToLowerChar (c : Char) : Char :=
  if 'A' ≤ c ∧ c ≤ 'Z' then Char.ofNat (c.toNat + 32) else c

/-- ASCII `toLowerCase`. -/
def jsToLower (s : String) : String :=
  String.mk (s.toList.map jsToLowerChar)

/-- ASCII upper-casing of one character (`String.prototype.toUpperCase`
on the ASCII range HTTP method names live in). -/
def jsToUpperChar (c : Char) : Char :=
  if 'a' ≤ c ∧ c ≤ 'z' then Char.ofNat (c.toNat - 32) else c

/-- ASCII `toUpperCase`. -/
def jsToUpper (s : String) : String :=
  String.mk (s.toList.map jsToUpperChar)

/-- JavaScript `startsWith` (character-list prefix test). -/
def jsStartsWith (s pre : String) : Bool :=
  pre.toList.isPrefixOf s.toList

/-- The opening-brace character, by code point. -/
def lbraceChar : Char := Char.ofNat 123

/-- The closing-brace character, by code point. -/
def rbraceChar : Char := Char.ofNat 125

/-- The opening brace as a string. -/
def lbrace : String := String.mk [lbraceChar]

/-- The closing brace as a string. -/
def rbrace : String := String.mk [rbraceChar]

/-! ## src/proxy/url.ts -/

/-- A parsed URL, as the WHATWG `URL` object exposes it to the broker:
scheme, credentials, hostname, pathname, and the decoded
`searchParams` key/value pairs in document order. -/
structure Url where
  scheme : String
  username : String
  password : String
  host : String
  path : String
  query : List (String × String)
deriving DecidableEq, Repr

/-- `ALLOWED_HOSTS` from src/proxy/url.ts. -/
def ALLOWED_HOSTS : List String := ["docs.googleapis.com", "www.googleapis.com"]

/-- `validateUpstreamUrl` from src/proxy/url.ts: https only, allow-listed
host, no embedded credentials.  The parse failure of `new URL` is outside
the model (a `Url` value is already parsed). -/
def validateUpstreamUrl (u : Url) : Except String Url :=
  if u.scheme ≠ "https" then .error "upstream_url must be https"
  else if ¬ (ALLOWED_HOSTS.contains u.host) then .error "disallowed upstream host"
  else if u.username ≠ "" ∨ u.password ≠ "" then
    .error "upstream_url must not include credentials"
  else .ok u

/-- The query-pair comparison used by `canonicalizeUrl`
(`a[0] === b[0] ? a[1].localeCompare(b[1]) : a[0].localeCompare(b[0])`):
by key, then by value.  `localeCompare` is modelled as code-point
lexicographic comparison of the character lists. -/
def qpLe (a b : String × String) : Prop :=
  if a.1 = b.1 then a.2.toList ≤ b.2.toList else a.1.toList < b.1.toList

instance : DecidableRel qpLe := fun a b => by
  unfold qpLe; infer_instance

instance : IsTotal (String × String) qpLe := by
  constructor
  intro a b
  unfold qpLe
  by_cases h : a.1 = b.1
  · rw [if_pos h, if_pos h.symm]
    exact le_total a.2.toList b.2.toList
  · rw [if_neg h, if_neg (Ne.symm h)]
    rcases lt_trichotomy a.1.toList b.1.toList with h' | h' | h'
    · exact Or.inl h'
    · exact absurd (String.ext h') h
    · exact Or.inr h'

instance : IsTrans (String × String) qpLe := by
  constructor
  intro a b c hab hbc
  unfold qpLe at hab hbc ⊢
  by_cases h1 : a.1 = b.1
  · by_cases h2 : b.1 = c.1
    · rw [if_pos h1] at hab
      rw [if_pos h2] at hbc
      rw [if_pos (h1.trans h2)]
      exact le_trans hab hbc
    · rw [if_neg h2] at hbc
      have hac : a.1 ≠ c.1 := fun hx => h2 (h1 ▸ hx)
      rw [if_neg hac]
      exact h1.symm ▸ hbc
  · by_cases h2 : b.1 = c.1
    · rw [if_neg h1] at hab
      have hac : a.1 ≠ c.1 := fun hx => h1 (hx.trans h2.symm)
      rw [if_neg hac]
      exact h2 ▸ hab
    · rw [if_neg h1] at hab
      rw [if_neg h2] at hbc
      by_cases h3 : a.1 = c.1
      · exact absurd (h3 ▸ lt_trans hab hbc) (lt_irrefl _)
      · rw [if_neg h3]
        exact lt_trans hab hbc

instance : IsAntisymm (String × String) qpLe := by
  constructor
  intro a b hab hba
  unfold qpLe at hab hba
  by_cases h : a.1 = b.1
  · rw [if_pos h] at hab
    rw [if_pos h.symm] at hba
    exact Prod.ext_iff.mpr ⟨h, String.ext (le_antisymm hab hba)⟩
  · rw [if_neg h] at hab
    rw [if_neg (Ne.symm h)] at hba
    exact absurd (lt_trans hab hba) (lt_irrefl _)

/-- `canonicalizeUrl` from src/proxy/url.ts: stable sort of the query
pairs by key then value; everything else is kept. -/
def canonicalizeUrl (u : Url) : Url :=
  { u with query := List.insertionSort qpLe u.query }

/-- UTF-8 bytes of a character. -/
def utf8Bytes (c : Char) : List Nat :=
  let n := c.toNat
  if n < 128 then [n]
  else if n < 2048 then [192 + n / 64, 128 + n % 64]
  else if n < 65536 then [224 + n / 4096, 128 + (n / 64) % 64, 128 + n % 64]
  else [240 + n / 262144, 128 + (n / 4096) % 64, 128 + (n / 64) % 64, 128 + n % 64]

/-- Uppercase hex digit of a nibble. -/
def hexDigitUpper (n : Nat) : Char :=
  if n < 10 then Char.ofNat (48 + n) else Char.ofNat (55 + n)

/-- Characters `application/x-www-form-urlencoded` leaves unescaped. -/
def isFormUnreserved (c : Char) : Bool :=
  c.isAlphanum || c = '*' || c = '-' || c = '.' || c = '_'

/-- Percent-escape of one byte. -/
def percentByte (b : Nat) : List Char :=
  ['%', hexDigitUpper (b / 16), hexDigitUpper (b % 16)]

/-- `URLSearchParams` serialization of one component
(`application/x-www-form-urlencoded`). -/
def encodeFormComponent (s : String) : String :=
  String.mk ((s.toList.map fun c =>
    if c = ' ' then ['+']
    else if isFormUnreserved c then [c]
    else ((utf8Bytes c).map percentByte).flatten).flatten)

/-- Serialization of a query pair list, as `URL.toString` renders
`searchParams` (empty search string when there are no pairs). -/
def renderQuery : List (String × String) → String
  | [] => ""
  | ps => "?" ++ String.intercalate "&"
      (ps.map fun p => encodeFormComponent p.1 ++ "=" ++ encodeFormComponent p.2)

/-- `URL.toString` for the URL shapes the broker handles. -/
def renderUrl (u : Url) : String :=
  u.scheme ++ "://" ++ u.host ++ u.path ++ renderQuery u.query

/-- The canonical URL string `createProxyRequest` stores:
`canonicalizeUrl(url).toString()`. -/
def canonicalUrlString (u : Url) : String :=
  renderUrl (canonicalizeUrl u)

/-! ## src/proxy/requests.ts — canonical payload and hash input -/

/-- The header-pair comparison used by `createProxyRequest`
(`a[0].localeCompare(b[0])`): by lower-cased key only; ties are left to
the stable sort. -/
def hdrLe (a b : String × String) : Prop :=
  a.1.toList ≤ b.1.toList

instance : DecidableRel hdrLe := fun a b => by
  unfold hdrLe; infer_instance

instance : IsTotal (String × String) hdrLe := by
  constructor
  intro a b
  exact le_total a.1.toList b.1.toList

instance : IsTrans (String × String) hdrLe := by
  constructor
  intro a b c hab hbc
  exact le_trans hab hbc

/-- `[k.toLowerCase(), v]` applied to one header entry. -/
def lowerPair (p : String × String) : String × String :=
  (jsToLower p.1, p.2)

/-- JavaScript property assignment `obj[k] = v` on an ordered record:
update in place when the key exists, append otherwise. -/
def recordSet : List (String × String) → String × String → List (String × String)
  | [], p => [p]
  | q :: rest, p => if q.1 = p.1 then (q.1, p.2) :: rest else q :: recordSet rest p

/-- `Object.fromEntries`: later entries overwrite earlier ones, key order
is first-occurrence order. -/
def fromEntries (l : List (String × String)) : List (String × String) :=
  l.foldl recordSet []

/-- JSON string escaping for the characters that occur in the broker's
canonical payloads (`JSON.stringify` of a string). -/
def jsonEscapeChar (c : Char) : List Char :=
  if c = '"' then ['\\', '"']
  else if c = '\\' then ['\\', '\\']
  else if c = '\n' then ['\\', 'n']
  else if c = '\r' then ['\\', 'r']
  else if c = '\t' then ['\\', 't']
  else [c]

/-- `JSON.stringify` of a string value. -/
def jsonStr (s : String) : String :=
  "\"" ++ String.mk ((s.toList.map jsonEscapeChar).flatten) ++ "\""

/-- `JSON.stringify` of an ordered string-valued record. -/
def renderHeadersJson (hs : List (String × String)) : String :=
  lbrace ++ String.intercalate ","
    (hs.map fun p => jsonStr p.1 ++ ":" ++ jsonStr p.2) ++ rbrace

/-- The canonical header record of `createProxyRequest`: lower-case the
keys, stable-sort by key, then `Object.fromEntries`. -/
def canonicalHeaders (headers : List (String × String)) : List (String × String) :=
  fromEntries (List.insertionSort hdrLe (headers.map lowerPair))

/-- The `canonicalPayload` JSON text of `createProxyRequest`:
`JSON.stringify({ method, url, headers, body_base64 })` with the method
upper-cased, the URL canonicalized, and the headers canonicalized. -/
def canonicalPayload (method : String) (url : Url)
    (headers : List (String × String)) (bodyBase64 : Option String) : String :=
  lbrace
    ++ jsonStr "method" ++ ":" ++ jsonStr (jsToUpper method)
    ++ "," ++ jsonStr "url" ++ ":" ++ jsonStr (canonicalUrlString url)
    ++ "," ++ jsonStr "headers" ++ ":" ++ renderHeadersJson (canonicalHeaders headers)
    ++ "," ++ jsonStr "body_base64" ++ ":"
    ++ (match bodyBase64 with
        | some b => jsonStr b
        | none => "null")
    ++ rbrace

/-! ## src/proxy/requests.ts — rows and creation -/

/-- A `proxy_requests` row (the columns the modelled operations touch).
`approval_expires_at_ms` is the `Date.parse` view of the stored ISO
timestamp: `none` models a non-finite parse. -/
structure ProxyRequestRow where
  id : String
  user_id : String
  api_key_id : String
  upstream_url : String
  method : String
  request_headers_json : Option String
  request_body_base64 : Option String
  request_hash : String
  status : String
  approval_expires_at_ms : Option Int
  idempotency_key : Option String
  upstream_http_status : Option Nat
  upstream_content_type : Option String
  upstream_bytes : Option Nat
  error_code : Option String
deriving DecidableEq, Repr

/-- Input of `createProxyRequest` (the fields the model uses). -/
structure CreateParams where
  userId : String
  apiKeyId : String
  upstreamUrl : Url
  method : String
  headers : List (String × String)
  bodyBase64 : Option String
  idempotencyKey : Option String
deriving DecidableEq, Repr

/-- Return value of `createProxyRequest`. -/
structure CreateResult where
  requestId : String
  canonicalUpstreamUrl : String
  requestHash : String
  status : String
  approvalExpiresAt : Option Int
  isNew : Bool
deriving DecidableEq, Repr

/-- The fresh `PENDING_APPROVAL` row `createProxyRequest` inserts. -/
def insertedRow (hashFn : String → String) (newId : String)
    (now ttl : Int) (p : CreateParams) : ProxyRequestRow :=
  { id := newId
    user_id := p.userId
    api_key_id := p.apiKeyId
    upstream_url := canonicalUrlString p.upstreamUrl
    method := jsToUpper p.method
    request_headers_json := some (renderHeadersJson (canonicalHeaders p.headers))
    request_body_base64 := p.bodyBase64
    request_hash := hashFn (canonicalPayload p.method p.upstreamUrl p.headers p.bodyBase64)
    status := "PENDING_APPROVAL"
    approval_expires_at_ms := some (now + ttl)
    idempotency_key := p.idempotencyKey
    upstream_http_status := none
    upstream_content_type := none
    upstream_bytes := none
    error_code := none }

/-- The `createProxyRequest` return record for a fresh insert. -/
def insertedResult (hashFn : String → String) (newId : String)
    (now ttl : Int) (p : CreateParams) : CreateResult :=
  { requestId := newId
    canonicalUpstreamUrl := canonicalUrlString p.upstreamUrl
    requestHash := hashFn (canonicalPayload p.method p.upstreamUrl p.headers p.bodyBase64)
    status := "PENDING_APPROVAL"
    approvalExpiresAt := some (now + ttl)
    isNew := true }

/-- `createProxyRequest` from src/proxy/requests.ts.  `hashFn` stands for
`sha256Hex`, `newId` for the fresh `ulid()`, `now` for `Date.now()` in
milliseconds, `ttl` for `approvalTtlMs`.  When an idempotency key is
supplied and a row for the same caller key and token exists, that row is
returned unchanged (`isNew = false`) and nothing is written; otherwise a
new `PENDING_APPROVAL` row is inserted. -/
def createProxyRequest (hashFn : String → String) (newId : String)
    (now ttl : Int) (db : List ProxyRequestRow) (p : CreateParams) :
    Except String (List ProxyRequestRow × CreateResult) := do
  let url ← validateUpstreamUrl p.upstreamUrl
  let _canonicalUrl := canonicalUrlString url
  let _requestHash := hashFn (canonicalPayload p.method url p.headers p.bodyBase64)
  match p.idempotencyKey with
  | some tok =>
    match db.find? (fun r =>
        r.api_key_id == p.apiKeyId && r.idempotency_key == some tok) with
    | some existing =>
      return (db,
        { requestId := existing.id
          canonicalUpstreamUrl := existing.upstream_url
          requestHash := existing.request_hash
          status := existing.status
          approvalExpiresAt := existing.approval_expires_at_ms
          isNew := false })
    | none =>
      return (db ++ [insertedRow hashFn newId now ttl p],
        insertedResult hashFn newId now ttl p)
  | none =>
    return (db ++ [insertedRow hashFn newId now ttl p],
      insertedResult hashFn newId now ttl p)

/-! ## src/proxy/alwaysAllow.ts -/

/-- A `proxy_always_allow_rules` row. -/
structure AlwaysAllowRule where
  user_id : String
  api_key_id : String
  requester_ip : String
  method : String
  upstream_host : String
  upstream_path : String
  revoked_at : Option String
deriving DecidableEq, Repr

/-- `getAlwaysAllowKey`: the composite endpoint key — method upper-cased,
hostname, pathname (defaulting to "/"); the query string never enters. -/
def getAlwaysAllowKey (apiKeyId requesterIp method : String) (url : Url) :
    String × String × String × String × String :=
  (apiKeyId, requesterIp, jsToUpper method, url.host,
   if url.path = "" then "/" else url.path)

/-- `hasAlwaysAllowRule`: a non-revoked row matching the full
(user, key, ip, method, host, path) sextuple exists. -/
def hasAlwaysAllowRule (rules : List AlwaysAllowRule)
    (userId apiKeyId requesterIp method : String) (url : Url) : Bool :=
  let k := getAlwaysAllowKey apiKeyId requesterIp method url
  rules.any fun r =>
    r.user_id == userId && r.api_key_id == k.1 && r.requester_ip == k.2.1 &&
    r.method == k.2.2.1 && r.upstream_host == k.2.2.2.1 &&
    r.upstream_path == k.2.2.2.2 && r.revoked_at == none

/-! ## src/web/proxy.ts — the POST /request handler after creation -/

/-- The caller identity attached by `requireApiKey`. -/
structure ApiKeyAuth where
  userId : String
  apiKeyId : String
deriving DecidableEq, Repr

/-- `UPDATE proxy_requests SET status = 'APPROVED' ... WHERE id = ? AND
user_id = ? AND status = 'PENDING_APPROVAL'` (the always-allow
auto-approve write). -/
def autoApproveUpdate (db : List ProxyRequestRow) (rid userId : String) :
    List ProxyRequestRow :=
  db.map fun r =>
    if r.id == rid && r.user_id == userId && r.status == "PENDING_APPROVAL" then
      { r with status := "APPROVED", error_code := none }
    else r

/-- Everything the POST /request handler does after `createProxyRequest`
returns, that the model observes: the auto-approve transition when an
always-allow rule matched, and which Telegram message (if any) goes out.
`telegramOk` stands for `u?.telegram_user_id && env.TELEGRAM_BOT_TOKEN`. -/
structure PostCreateResult where
  db : List ProxyRequestRow
  finalStatus : String
  sentAutoApprovedNote : Bool
  sentInteractivePrompt : Bool
deriving DecidableEq, Repr

/-- The tail of the POST /request handler (src/web/proxy.ts, after
`createProxyRequest`): when `alwaysAllow` matched and the returned record
is still `PENDING_APPROVAL`, flip it to `APPROVED`; then, only for new
records with Telegram configured, send either the AUTO-APPROVED
notification (and stop, since the status is no longer pending) or the
interactive approval prompt (only while still pending). -/
def postCreate (db : List ProxyRequestRow) (created : CreateResult)
    (alwaysAllow : Bool) (userId : String) (telegramOk : Bool) :
    PostCreateResult :=
  let step :=
    if alwaysAllow && created.status == "PENDING_APPROVAL" then
      (autoApproveUpdate db created.requestId userId, "APPROVED", true)
    else (db, created.status, false)
  let db1 := step.1
  let status1 := step.2.1
  let autoApproved := step.2.2
  if created.isNew && telegramOk then
    if autoApproved then
      { db := db1, finalStatus := status1
        sentAutoApprovedNote := true, sentInteractivePrompt := false }
    else if status1 == "PENDING_APPROVAL" then
      { db := db1, finalStatus := status1
        sentAutoApprovedNote := false, sentInteractivePrompt := true }
    else
      { db := db1, finalStatus := status1
        sentAutoApprovedNote := false, sentInteractivePrompt := false }
  else
    { db := db1, finalStatus := status1
      sentAutoApprovedNote := false, sentInteractivePrompt := false }

/-- A full POST /request call as the model sees it: the always-allow
lookup (only when a requester IP is known), creation, and the handler
tail. -/
structure HandleCreateResult where
  db : List ProxyRequestRow
  requestId : String
  requestHash : String
  finalStatus : String
  approvalExpiresAt : Option Int
  isNew : Bool
  sentAutoApprovedNote : Bool
  sentInteractivePrompt : Bool
deriving DecidableEq, Repr

/-- The POST /request handler from src/web/proxy.ts, composed from the
always-allow lookup, `createProxyRequest`, and `postCreate`. -/
def handleCreateRequest (hashFn : String → String) (newId : String)
    (now ttl : Int) (db : List ProxyRequestRow) (rules : List AlwaysAllowRule)
    (auth : ApiKeyAuth) (requesterIp : Option String) (p : CreateParams)
    (telegramOk : Bool) : Except String HandleCreateResult := do
  let alwaysAllow :=
    match requesterIp with
    | some ip => hasAlwaysAllowRule rules auth.userId auth.apiKeyId ip
        p.method p.upstreamUrl
    | none => false
  let (db1, created) ← createProxyRequest hashFn newId now ttl db
    { p with userId := auth.userId, apiKeyId := auth.apiKeyId }
  let post := postCreate db1 created alwaysAllow auth.userId telegramOk
  return {
    db := post.db
    requestId := created.requestId
    requestHash := created.requestHash
    finalStatus := post.finalStatus
    approvalExpiresAt := created.approvalExpiresAt
    isNew := created.isNew
    sentAutoApprovedNote := post.sentAutoApprovedNote
    sentInteractivePrompt := post.sentInteractivePrompt }

/-! ## src/proxy/requests.ts — decideProxyRequest -/

/-- An `approvals` row; `request_id` is the primary key, so inserting a
second row for the same request fails the transaction. -/
structure ApprovalRow where
  request_id : String
  decision : String
deriving DecidableEq, Repr

/-- Result discriminator of `decideProxyRequest`. -/
inductive DecideResult where
  | ok
  | notFound
  | notPending
  | expired
  | alreadyDecided
deriving DecidableEq, Repr

/-- `UPDATE proxy_requests SET status = 'EXPIRED', error_code =
'APPROVAL_EXPIRED' WHERE id = ? AND user_id = ? AND status =
'PENDING_APPROVAL'` (lazy expiry inside `decideProxyRequest`). -/
def decideLazyExpire (db : List ProxyRequestRow) (rid userId : String) :
    List ProxyRequestRow :=
  db.map fun r =>
    if r.id == rid && r.user_id == userId && r.status == "PENDING_APPROVAL" then
      { r with status := "EXPIRED", error_code := some "APPROVAL_EXPIRED" }
    else r

/-- The decide-transaction write: set the decided status (guarded on
`PENDING_APPROVAL`). -/
def decideCommitUpdate (db : List ProxyRequestRow)
    (rid userId newStatus : String) (errorCode : Option String) :
    List ProxyRequestRow :=
  db.map fun r =>
    if r.id == rid && r.user_id == userId && r.status == "PENDING_APPROVAL" then
      { r with status := newStatus, error_code := errorCode }
    else r

/-- `decideProxyRequest` from src/proxy/requests.ts.  `decision` is
`"approved"` or `"denied"`.  The transaction (status update plus
`approvals` insert) rolls back — `already_decided` — when an approval row
for the request already exists. -/
def decideProxyRequest (db : List ProxyRequestRow)
    (approvals : List ApprovalRow) (rid userId decision : String)
    (now : Int) : List ProxyRequestRow × List ApprovalRow × DecideResult :=
  match db.find? (fun r => r.id == rid && r.user_id == userId) with
  | none => (db, approvals, .notFound)
  | some row =>
    if row.status ≠ "PENDING_APPROVAL" then (db, approvals, .notPending)
    else
      let isExpired : Bool :=
        match row.approval_expires_at_ms with
        | some e => decide (now > e)
        | none => false
      if isExpired then
        (decideLazyExpire db rid userId, approvals, .expired)
      else if approvals.any (fun a => a.request_id == rid) then
        (db, approvals, .alreadyDecided)
      else
        let newStatus := if decision = "approved" then "APPROVED" else "DENIED"
        let errorCode := if decision = "denied" then some "DENIED" else none
        (decideCommitUpdate db rid userId newStatus errorCode,
         approvals ++ [{ request_id := rid, decision := decision }],
         .ok)

/-! ## src/proxy/readLimit.ts -/

/-- Recursive body of `readBodyWithLimit`: accumulate chunks, fail with
`response_too_large` as soon as the running total exceeds the cap. -/
def readBodyWithLimitGo (maxBytes : Nat) :
    List (List Nat) → Nat → Except String (List Nat)
  | [], _ => .ok []
  | c :: cs, total =>
    let t := total + c.length
    if t > maxBytes then .error "response_too_large"
    else
      match readBodyWithLimitGo maxBytes cs t with
      | .ok rest => .ok (c ++ rest)
      | .error e => .error e

/-- `readBodyWithLimit` from src/proxy/readLimit.ts over a chunked byte
stream. -/
def readBodyWithLimit (chunks : List (List Nat)) (maxBytes : Nat) :
    Except String (List Nat) :=
  readBodyWithLimitGo maxBytes chunks 0

/-! ## src/web/proxy.ts — the POST /requests/:id/execute handler -/

/-- The upstream response of the execute fetch: HTTP status, content type
and the chunked body stream. -/
structure UpstreamResult where
  status : Nat
  contentType : Option String
  bodyChunks : List (List Nat)
deriving DecidableEq, Repr

/-- Environment of one execute call: which of the pre-fetch checks hold
for this user/provider, and what the upstream fetch would yield (`none`
models a thrown fetch — network failure, timeout, disallowed
redirect). -/
structure ExecEnv where
  hasLinkedAccount : Bool
  appSecretConfigured : Bool
  methodAllowed : Bool
  urlAllowed : Bool
  fetchResult : Option UpstreamResult
deriving DecidableEq, Repr

/-- What one execute call produced: the database afterwards, the HTTP
response pieces, and whether the upstream fetch was performed. -/
structure ExecOutcome where
  db : List ProxyRequestRow
  httpStatus : Nat
  errorCode : Option String
  bodyBytes : Option (List Nat)
  contentType : Option String
  upstreamCalled : Bool
deriving DecidableEq, Repr

/-- The key-scoped row lookup of the execute (and status) handlers:
`WHERE id = ? AND user_id = ? AND api_key_id = ?`. -/
def findRequestKeyScoped (db : List ProxyRequestRow)
    (rid userId apiKeyId : String) : Option ProxyRequestRow :=
  db.find? fun r =>
    r.id == rid && r.user_id == userId && r.api_key_id == apiKeyId

/-- `UPDATE ... SET status = 'EXPIRED', error_code = 'APPROVAL_EXPIRED'
WHERE id = ? AND status = 'APPROVED'` (lazy expiry inside execute). -/
def execLazyExpire (db : List ProxyRequestRow) (rid : String) :
    List ProxyRequestRow :=
  db.map fun r =>
    if r.id == rid && r.status == "APPROVED" then
      { r with status := "EXPIRED", error_code := some "APPROVAL_EXPIRED" }
    else r

/-- The claim write: `UPDATE ... SET status = 'EXECUTING' WHERE id = ?
AND status = 'APPROVED' AND api_key_id = ?`. -/
def claimUpdate (db : List ProxyRequestRow) (rid apiKeyId : String) :
    List ProxyRequestRow :=
  db.map fun r =>
    if r.id == rid && r.status == "APPROVED" && r.api_key_id == apiKeyId then
      { r with status := "EXECUTING" }
    else r

/-- `run(...).changes` of the claim write: how many rows matched. -/
def claimChanges (db : List ProxyRequestRow) (rid apiKeyId : String) : Nat :=
  (db.filter fun r =>
    r.id == rid && r.status == "APPROVED" && r.api_key_id == apiKeyId).length

/-- Unconditional terminal failure write
(`SET status = 'FAILED', error_code = ? WHERE id = ?`). -/
def failUpdate (db : List ProxyRequestRow) (rid : String)
    (errorCode : Option String) : List ProxyRequestRow :=
  db.map fun r =>
    if r.id == rid then { r with status := "FAILED", error_code := errorCode }
    else r

/-- The terminal write after an upstream response
(`SET status = ?, upstream_http_status = ?, upstream_content_type = ?,
upstream_bytes = ?, error_code = ?, error_message = NULL WHERE id = ?`). -/
def terminalUpdate (db : List ProxyRequestRow) (rid terminalStatus : String)
    (upStatus : Nat) (contentType : Option String) (nbytes : Nat)
    (errorCode : Option String) : List ProxyRequestRow :=
  db.map fun r =>
    if r.id == rid then
      { r with
          status := terminalStatus
          upstream_http_status := some upStatus
          upstream_content_type := contentType
          upstream_bytes := some nbytes
          error_code := errorCode }
    else r

/-- The post-claim part of the execute handler: provider/credential
checks, the upstream fetch, the bounded body read, the terminal write,
and the verbatim relay of status, content type, and body bytes. -/
def executeClaimed (db1 : List ProxyRequestRow) (row : ProxyRequestRow)
    (env : ExecEnv) : ExecOutcome :=
  if ¬ env.hasLinkedAccount then
    { db := failUpdate db1 row.id (some "NO_LINKED_ACCOUNT")
      httpStatus := 409, errorCode := some "no_linked_account"
      bodyBytes := none, contentType := none, upstreamCalled := false }
  else if ¬ env.appSecretConfigured then
    { db := failUpdate db1 row.id (some "APP_SECRET_NOT_CONFIGURED")
      httpStatus := 500, errorCode := some "server_misconfigured"
      bodyBytes := none, contentType := none, upstreamCalled := false }
  else if ¬ env.methodAllowed then
    { db := failUpdate db1 row.id (some "METHOD_NOT_ALLOWED")
      httpStatus := 400, errorCode := some "invalid_request"
      bodyBytes := none, contentType := none, upstreamCalled := false }
  else if ¬ env.urlAllowed then
    { db := failUpdate db1 row.id (some "DISALLOWED_UPSTREAM_URL")
      httpStatus := 400, errorCode := some "invalid_upstream_url"
      bodyBytes := none, contentType := none, upstreamCalled := false }
  else
    match env.fetchResult with
    | none =>
      { db := failUpdate db1 row.id (some "UPSTREAM_FAILED")
        httpStatus := 502, errorCode := some "execution_failed"
        bodyBytes := none, contentType := none, upstreamCalled := true }
    | some res =>
      match readBodyWithLimit res.bodyChunks (1024 * 1024) with
      | .error _ =>
        { db := failUpdate db1 row.id (some "RESPONSE_TOO_LARGE")
          httpStatus := 502, errorCode := some "execution_failed"
          bodyBytes := none, contentType := none, upstreamCalled := true }
      | .ok bodyBytes =>
        let terminalStatus :=
          if 200 ≤ res.status ∧ res.status < 300 then "SUCCEEDED" else "FAILED"
        let errorCode :=
          if terminalStatus = "FAILED" then
            some ("UPSTREAM_HTTP_" ++ toString res.status)
          else none
        { db := terminalUpdate db1 row.id terminalStatus res.status
            res.contentType bodyBytes.length errorCode
          httpStatus := res.status, errorCode := none
          bodyBytes := some bodyBytes, contentType := res.contentType
          upstreamCalled := true }

/-- The POST /requests/:id/execute handler from src/web/proxy.ts: the
key-scoped lookup, the status ladder, lazy expiry, the conditional
`APPROVED → EXECUTING` claim, and — only when exactly one row was claimed
— the upstream execution. -/
def executeStep (db : List ProxyRequestRow) (auth : ApiKeyAuth)
    (rid : String) (now : Int) (env : ExecEnv) : ExecOutcome :=
  match findRequestKeyScoped db rid auth.userId auth.apiKeyId with
  | none =>
    { db := db, httpStatus := 403, errorCode := some "forbidden"
      bodyBytes := none, contentType := none, upstreamCalled := false }
  | some row =>
    if row.status == "PENDING_APPROVAL" then
      { db := db, httpStatus := 202, errorCode := some "pending_approval"
        bodyBytes := none, contentType := none, upstreamCalled := false }
    else if row.status == "DENIED" then
      { db := db, httpStatus := 403, errorCode := some "denied"
        bodyBytes := none, contentType := none, upstreamCalled := false }
    else if row.status == "EXPIRED" then
      { db := db, httpStatus := 408, errorCode := some "approval_expired"
        bodyBytes := none, contentType := none, upstreamCalled := false }
    else if row.status == "EXECUTING" then
      { db := db, httpStatus := 409, errorCode := some "executing"
        bodyBytes := none, contentType := none, upstreamCalled := false }
    else if row.status == "SUCCEEDED" || row.status == "FAILED" then
      { db := db, httpStatus := 410, errorCode := some "already_executed"
        bodyBytes := none, contentType := none, upstreamCalled := false }
    else if row.status ≠ "APPROVED" then
      { db := db, httpStatus := 400, errorCode := some "invalid_state"
        bodyBytes := none, contentType := none, upstreamCalled := false }
    else
      let isExpired : Bool :=
        match row.approval_expires_at_ms with
        | some e => decide (now > e)
        | none => false
      if isExpired then
        { db := execLazyExpire db row.id, httpStatus := 408
          errorCode := some "approval_expired"
          bodyBytes := none, contentType := none, upstreamCalled := false }
      else
        let db1 := claimUpdate db row.id auth.apiKeyId
        if claimChanges db row.id auth.apiKeyId == 1 then
          executeClaimed db1 row env
        else
          { db := db1, httpStatus := 409, errorCode := some "executing"
            bodyBytes := none, contentType := none, upstreamCalled := false }

/-! ## Status state machine for the claim-once argument

Every write that touches `proxy_requests.status` anywhere in the
code base (the decide transaction, the Telegram-side auto-approve, the
lazy expiries in decide/execute, the sweeper, the execute claim, and the
unconditional terminal writes) is one of these operations; each carries
exactly the `WHERE` guard its SQL statement has. -/

inductive ReqOp where
  | decideApprove
  | decideDeny
  | expirePending
  | autoApprove
  | expireApproved
  | claim
  | finishSucceeded
  | finishFailed
deriving DecidableEq, Repr

/-- One status write applied to a row's status; the `Bool` records
whether this operation was a claim that matched (one row changed). -/
def applyReqOp (s : String) : ReqOp → String × Bool
  | .decideApprove => if s == "PENDING_APPROVAL" then ("APPROVED", false) else (s, false)
  | .decideDeny => if s == "PENDING_APPROVAL" then ("DENIED", false) else (s, false)
  | .expirePending => if s == "PENDING_APPROVAL" then ("EXPIRED", false) else (s, false)
  | .autoApprove => if s == "PENDING_APPROVAL" then ("APPROVED", false) else (s, false)
  | .expireApproved => if s == "APPROVED" then ("EXPIRED", false) else (s, false)
  | .claim => if s == "APPROVED" then ("EXECUTING", true) else (s, false)
  | .finishSucceeded => ("SUCCEEDED", false)
  | .finishFailed => ("FAILED", false)

/-- Run a sequence of status writes; return the final status and how many
claims succeeded along the way. -/
def runReqOps (s : String) : List ReqOp → String × Nat
  | [] => (s, 0)
  | op :: ops =>
    let step := applyReqOp s op
    let rest := runReqOps step.1 ops
    (rest.1, (if step.2 then 1 else 0) + rest.2)

/-! ## src/git/pktline.ts -/

/-- One receive-pack update command. -/
structure ReceivePackCommand where
  oldSha : String
  newSha : String
  ref : String
deriving DecidableEq, Repr

/-- Value of a hex digit, if the character is one. -/
def hexDigitVal (c : Char) : Option Nat :=
  if '0' ≤ c ∧ c ≤ '9' then some (c.toNat - 48)
  else if 'a' ≤ c ∧ c ≤ 'f' then some (c.toNat - 87)
  else if 'A' ≤ c ∧ c ≤ 'F' then some (c.toNat - 55)
  else none

/-- Fold the leading hex-digit run of a character list into a number
(`Number.parseInt(s, 16)` reads the longest hex-digit run; it is `NaN`
only when there is none). -/
def hexRunVal : List Char → Nat → Nat
  | [], acc => acc
  | c :: rest, acc =>
    match hexDigitVal c with
    | some v => hexRunVal rest (acc * 16 + v)
    | none => acc

/-- `parsePktLen` from src/git/pktline.ts: `Number.parseInt(hex4, 16)`,
throwing (`none`) when the parse is `NaN` — i.e. when the text starts
with no hex digit. -/
def parsePktLen (hex4 : List Char) : Option Nat :=
  match hex4 with
  | [] => none
  | c :: _ =>
    match hexDigitVal c with
    | some _ => some (hexRunVal hex4 0)
    | none => none

/-- `isAllZeroSha` from src/git/pktline.ts (`/^0{40}$/`). -/
def isAllZeroSha (sha : String) : Bool :=
  sha.toList == List.replicate 40 '0'

/-- One parsed pkt-line payload turned into a command, mirroring the loop
body of `parseReceivePackCommands`: cut at the first NUL (capability
list), trim, split on single spaces, require at least three fields, and
re-join everything from the third field as the ref name. -/
def payloadToCommand (payload : List Char) : Option ReceivePackCommand :=
  let line := (splitOnChar (Char.ofNat 0) payload).headD []
  let parts := splitOnChar ' ' (jsTrim line)
  match parts with
  | o :: n :: restParts =>
    if restParts.isEmpty then none
    else some
      { oldSha := String.mk o
        newSha := String.mk n
        ref := String.intercalate " " (restParts.map String.mk) }
  | _ => none

/-- Recursion core of `parseReceivePackCommands`.  Each step consumes at
least four bytes, so running it with the byte count as fuel can never
exhaust the fuel; the fuel only makes the recursion structural. -/
def parseReceivePackCommandsGo : Nat → List Char → Option (List ReceivePackCommand)
  | 0, _ => some []
  | fuel + 1, data =>
    if 4 ≤ data.length then
      match parsePktLen (data.take 4) with
      | none => none
      | some len =>
        if len = 0 then some []
        else if len < 4 then
          -- `payloadLen < 0`: not enough data in the prefix, stop.
          some []
        else
          let payloadLen := len - 4
          if 4 + payloadLen ≤ data.length then
            let payload := (data.drop 4).take payloadLen
            match parseReceivePackCommandsGo fuel (data.drop (4 + payloadLen)) with
            | none => none
            | some rest =>
              match payloadToCommand payload with
              | some cmd => some (cmd :: rest)
              | none => some rest
          else
            some []
    else
      some []

/-- `parseReceivePackCommands` from src/git/pktline.ts: walk the pkt-line
frames of the buffered body, stop at a flush frame (`len = 0`) or when
the remaining data cannot hold the announced payload; `none` models the
thrown `invalid pkt-line length`. -/
def parseReceivePackCommands (data : List Char) : Option (List ReceivePackCommand) :=
  parseReceivePackCommandsGo data.length data

/-- `extractSymrefHeadFromInfoRefs` from src/git/pktline.ts: the first
regex match of `symref=HEAD:([^\s\0]+)` in the decoded body. -/
def extractSymrefHeadFromInfoRefs (body : List Char) : Option String :=
  match body with
  | [] => none
  | _ :: rest =>
    if "symref=HEAD:".toList.isPrefixOf body then
      let after := body.drop "symref=HEAD:".toList.length
      let captured := after.takeWhile fun c => ¬ (isJsSpace c ∨ c = Char.ofNat 0)
      if captured.isEmpty then extractSymrefHeadFromInfoRefs rest
      else some (String.mk captured)
    else extractSymrefHeadFromInfoRefs rest

/-! ## src/git/stream.ts — prefix buffering -/

/-- Does the text contain the flush sequence "0000" as a substring? -/
def hasFlushSub : List Char → Bool
  | '0' :: '0' :: '0' :: '0' :: _ => true
  | _ :: rest => hasFlushSub rest
  | [] => false

/-- Result of `readPrefixUntilFlush`: the buffered chunks, whether the
scan saw "0000", and the chunks still left on the live reader. -/
structure PrefixReadResult where
  pre : List (List Char)
  sawFlush : Bool
  rest : List (List Char)
deriving DecidableEq, Repr

/-- Loop body of `readPrefixUntilFlush`: push each chunk, stop once the
running total exceeds the cap, or once the sliding window (previous
8-character tail plus the current chunk) contains "0000". -/
def readPrefixGo (maxBytes : Nat) :
    List (List Char) → Nat → List Char → PrefixReadResult
  | [], _, _ => { pre := [], sawFlush := false, rest := [] }
  | c :: cs, total, tail =>
    let total' := total + c.length
    if total' > maxBytes then { pre := [c], sawFlush := false, rest := cs }
    else
      let scan := tail ++ c
      if hasFlushSub scan then { pre := [c], sawFlush := true, rest := cs }
      else
        let r := readPrefixGo maxBytes cs total' (lastN scan 8)
        { pre := c :: r.pre, sawFlush := r.sawFlush, rest := r.rest }

/-- `readPrefixUntilFlush` from src/git/stream.ts over the chunk sequence
of the request body. -/
def readPrefixUntilFlush (chunks : List (List Char)) (maxBytes : Nat) :
    PrefixReadResult :=
  readPrefixGo maxBytes chunks 0 []

/-! ## src/git/sessions.ts -/

/-- A `git_sessions` row (the columns the modelled operations touch). -/
structure GitSession where
  id : String
  user_id : String
  api_key_id : String
  provider : String
  operation : String
  repo_owner : String
  repo_name : String
  status : String
  approval_expires_at_ms : Option Int
  session_secret_hash : String
  allow_default_branch_push : Bool
  deny_deletes : Bool
  deny_tag_updates : Bool
  default_branch_ref : Option String
deriving DecidableEq, Repr

/-- `isReadOperation` from src/web/git.ts. -/
def isReadOperation (op : String) : Bool :=
  op == "clone" || op == "fetch" || op == "pull"

/-- `markGitSessionUsed`: `SET status = 'USED' WHERE id = ?` (no status
guard). -/
def markGitSessionUsed (s : GitSession) : GitSession :=
  { s with status := "USED" }

/-- `storeDefaultBranchRef`: `SET default_branch_ref = ? WHERE id = ? AND
default_branch_ref IS NULL` — the first observation wins. -/
def storeDefaultBranchRef (s : GitSession) (ref : String) : GitSession :=
  match s.default_branch_ref with
  | none => { s with default_branch_ref := some ref }
  | some _ => s

/-! ## src/web/git.ts — the wire-proxy handler -/

/-- `isAllowedGitPath` from src/web/git.ts. -/
def isAllowedGitPath (path : String) : Bool :=
  path == "/info/refs" || path == "/git-upload-pack" || path == "/git-receive-pack"

/-- `methodAllowed` from src/web/git.ts. -/
def methodAllowed (path method : String) : Bool :=
  if path == "/info/refs" then method == "GET"
  else if path == "/git-upload-pack" then method == "POST"
  else if path == "/git-receive-pack" then method == "POST"
  else false

/-- Why the receive-pack command gate rejects a push. -/
inductive PushReject where
  | refDeletion
  | tagUpdate
  | defaultBranch
deriving DecidableEq, Repr

/-- The command loop of the receive-pack inspection (src/web/git.ts):
the first command that deletes a ref, updates a tag, or updates the
discovered default branch while pushes to it are not allowed, rejects
the whole call. -/
def checkCommands (sess : GitSession) : List ReceivePackCommand → Option PushReject
  | [] => none
  | cmd :: rest =>
    if isAllZeroSha cmd.newSha then some .refDeletion
    else if jsStartsWith cmd.ref "refs/tags/" then some .tagUpdate
    else if (match sess.default_branch_ref with
             | some d => cmd.ref == d
             | none => false) && ¬ sess.allow_default_branch_push then
      some .defaultBranch
    else checkCommands sess rest

/-- What a proxied Git call does: reply with an error locally, or call
the upstream Git host (forwarding the given body for POST endpoints). -/
inductive GitProxyOutcome where
  | reject (httpStatus : Nat) (message : String)
  | forwardUpstream (body : Option (List Char))
deriving DecidableEq, Repr

/-- Result of one wire-proxy call: the session row afterwards and the
outcome. -/
structure GitProxyResult where
  sess : GitSession
  outcome : GitProxyOutcome
deriving DecidableEq, Repr

/-- The `gitRouter.all("/session/...")` handler from src/web/git.ts.
`hashFn` stands for `sha256Hex` (secret validation), `service` for the
`?service=` query of /info/refs, `bodyChunks` for the streamed request
body (`none`: request without a body), `tokenAvailable` for a decryptable
GitHub token.  The receive-pack branch buffers the body prefix up to the
flush scan, parses the command section, and rejects without forwarding
when a command violates the push rules; otherwise the buffered chunks
are replayed followed by the rest of the stream, byte-identically. -/
def gitProxyStep (hashFn : String → String) (sess : GitSession)
    (secret owner repo path method : String) (service : Option String)
    (bodyChunks : Option (List (List Char))) (tokenAvailable : Bool) :
    GitProxyResult :=
  if hashFn secret ≠ sess.session_secret_hash then
    { sess := sess, outcome := .reject 403 "forbidden" }
  else if sess.provider ≠ "github" then
    { sess := sess, outcome := .reject 403 "forbidden" }
  else if sess.repo_owner ≠ owner ∨ sess.repo_name ≠ repo then
    { sess := sess, outcome := .reject 403 "forbidden" }
  else if ¬ isAllowedGitPath path then
    { sess := sess, outcome := .reject 404 "not found" }
  else if ¬ methodAllowed path method then
    { sess := sess, outcome := .reject 405 "method not allowed" }
  else if sess.status == "DENIED" then
    { sess := sess, outcome := .reject 403 "denied" }
  else if sess.status == "EXPIRED" then
    { sess := sess, outcome := .reject 408 "expired" }
  else if sess.status == "USED" then
    { sess := sess, outcome := .reject 410 "used" }
  else if ¬ (sess.status == "APPROVED" || sess.status == "ACTIVE") then
    { sess := sess, outcome := .reject 409 "not ready" }
  else
    let sess1 :=
      if sess.status == "APPROVED" then { sess with status := "ACTIVE" }
      else sess
    if path == "/info/refs" ∧ service = none then
      { sess := sess1, outcome := .reject 400 "missing service" }
    else if path == "/info/refs" ∧ isReadOperation sess1.operation ∧
        service ≠ some "git-upload-pack" then
      { sess := sess1, outcome := .reject 403 "forbidden" }
    else if path == "/info/refs" ∧ sess1.operation == "push" ∧
        service ≠ some "git-receive-pack" then
      { sess := sess1, outcome := .reject 403 "forbidden" }
    else if isReadOperation sess1.operation ∧ path == "/git-receive-pack" then
      { sess := sess1, outcome := .reject 403 "forbidden" }
    else if sess1.operation == "push" ∧ path == "/git-upload-pack" then
      { sess := sess1, outcome := .reject 403 "forbidden" }
    else
      -- `touchGitSessionActivity` updates only timestamps (not modelled).
      let sess2 :=
        if path == "/git-receive-pack" then markGitSessionUsed sess1 else sess1
      if ¬ tokenAvailable ∧ sess2.operation == "push" then
        { sess := sess2, outcome := .reject 409 "no github token" }
      else if path == "/git-receive-pack" then
        match bodyChunks with
        | none => { sess := sess2, outcome := .reject 400 "missing body" }
        | some chunks =>
          let pr := readPrefixUntilFlush chunks (256 * 1024)
          match parseReceivePackCommands pr.pre.flatten with
          | none =>
            -- `parsePktLen` threw; the handler has no catch, Hono answers 500.
            { sess := sess2, outcome := .reject 500 "internal error" }
          | some cmds =>
            match checkCommands sess2 cmds with
            | some .refDeletion =>
              { sess := sess2, outcome := .reject 403 "ref deletion is not allowed" }
            | some .tagUpdate =>
              { sess := sess2, outcome := .reject 403 "tag updates are not allowed" }
            | some .defaultBranch =>
              { sess := sess2, outcome :=
                  .reject 403 "default branch push is not allowed for this session" }
            | none =>
              { sess := sess2, outcome :=
                  .forwardUpstream (some ((pr.pre ++ pr.rest).flatten)) }
      else if path == "/git-upload-pack" then
        { sess := sess2, outcome :=
            .forwardUpstream (bodyChunks.map List.flatten) }
      else
        { sess := sess2, outcome := .forwardUpstream none }

/-- The post-fetch /info/refs hook of the handler for push sessions:
scan the first 64 KiB of the upstream response for the HEAD symref
capability and store it as the session's default-branch ref (first
observation wins). -/
def applyInfoRefsDiscovery (sess : GitSession) (resBody : List Char) : GitSession :=
  match extractSymrefHeadFromInfoRefs (resBody.take (64 * 1024)) with
  | some ref => storeDefaultBranchRef sess ref
  | none => sess

/-! ## Concrete sample data and derived result shapes for the claims -/

/-- Concrete terminal request row used by the C1 witness. -/
def c1SampleRow : ProxyRequestRow :=
  { id := "r1", user_id := "u1", api_key_id := "k1"
    upstream_url := "https://www.googleapis.com/drive/v3/files"
    method := "GET", request_headers_json := none
    request_body_base64 := none, request_hash := "h1"
    status := "SUCCEEDED", approval_expires_at_ms := some 1000
    idempotency_key := none, upstream_http_status := some 200
    upstream_content_type := none, upstream_bytes := some 5
    error_code := none }

/-- Concrete pending-but-expired row for the C4 witness. -/
def c4PendingRow : ProxyRequestRow :=
  { c1SampleRow with id := "rd", status := "PENDING_APPROVAL"
                     approval_expires_at_ms := some 1000 }

/-- Concrete approved-but-expired row for the C4 witness. -/
def c4ApprovedRow : ProxyRequestRow :=
  { c1SampleRow with id := "re", status := "APPROVED"
                     approval_expires_at_ms := some 1000 }

/-- Concrete approved row for the C8 witness. -/
def c8Row : ProxyRequestRow :=
  { c1SampleRow with id := "r8", status := "APPROVED"
                     approval_expires_at_ms := some 5000 }

/-- The replayed `createProxyRequest` result. -/
def replayResult (existing : ProxyRequestRow) : CreateResult :=
  { requestId := existing.id
    canonicalUpstreamUrl := existing.upstream_url
    requestHash := existing.request_hash
    status := existing.status
    approvalExpiresAt := existing.approval_expires_at_ms
    isNew := false }

/-- The always-allow flag the POST /request handler computes. -/
def effectiveAlwaysAllow (rules : List AlwaysAllowRule) (auth : ApiKeyAuth)
    (requesterIp : Option String) (p : CreateParams) : Bool :=
  match requesterIp with
  | some ip => hasAlwaysAllowRule rules auth.userId auth.apiKeyId ip
      p.method p.upstreamUrl
  | none => false

/-- A replayed create returns the stored row's data with no message sent;
its final state is the stored status, except that a matching always-allow
rule auto-approves a still-pending record. -/
def replayHandleResult (db : List ProxyRequestRow) (auth : ApiKeyAuth)
    (aa : Bool) (existing : ProxyRequestRow) : HandleCreateResult :=
  { db := if aa && existing.status == "PENDING_APPROVAL" then
        autoApproveUpdate db existing.id auth.userId
      else db
    requestId := existing.id
    requestHash := existing.request_hash
    finalStatus := if aa && existing.status == "PENDING_APPROVAL" then
        "APPROVED"
      else existing.status
    approvalExpiresAt := existing.approval_expires_at_ms
    isNew := false
    sentAutoApprovedNote := false
    sentInteractivePrompt := false }

/-- The POST /request result when a matching always-allow rule
short-circuits the decision step for a fresh create. -/
def autoApprovedHandleResult (hashFn : String → String) (newId : String)
    (now ttl : Int) (db : List ProxyRequestRow) (auth : ApiKeyAuth)
    (p : CreateParams) : HandleCreateResult :=
  { db := autoApproveUpdate
      (db ++ [insertedRow hashFn newId now ttl
        { p with userId := auth.userId, apiKeyId := auth.apiKeyId }])
      newId auth.userId
    requestId := newId
    requestHash := hashFn (canonicalPayload p.method p.upstreamUrl p.headers p.bodyBase64)
    finalStatus := "APPROVED"
    approvalExpiresAt := some (now + ttl)
    isNew := true
    sentAutoApprovedNote := true
    sentInteractivePrompt := false }

/-- Fresh create call (no idempotency token), for the C9 witness. -/
def c9Params : CreateParams :=
  { userId := "u1", apiKeyId := "k1"
    upstreamUrl := { scheme := "https", username := "", password := ""
                     host := "www.googleapis.com", path := "/v1/x", query := [] }
    method := "GET", headers := [], bodyBase64 := none
    idempotencyKey := none }

/-- A matching always-allow rule, for the C9 witness. -/
def c9Rule : AlwaysAllowRule :=
  { user_id := "u1", api_key_id := "k1", requester_ip := "9.9.9.9"
    method := "GET", upstream_host := "www.googleapis.com"
    upstream_path := "/v1/x", revoked_at := none }

/-- Stored pending request with an idempotency token, for C7. -/
def c7PendingRow : ProxyRequestRow :=
  { id := "r7", user_id := "u1", api_key_id := "k1"
    upstream_url := "https://www.googleapis.com/v1/x", method := "GET"
    request_headers_json := none, request_body_base64 := none
    request_hash := "origHash", status := "PENDING_APPROVAL"
    approval_expires_at_ms := some 500, idempotency_key := some "t1"
    upstream_http_status := none, upstream_content_type := none
    upstream_bytes := none, error_code := none }

/-- An always-allow rule matching the replaying caller, for C7. -/
def c7Rule : AlwaysAllowRule :=
  { user_id := "u1", api_key_id := "k1", requester_ip := "9.9.9.9"
    method := "GET", upstream_host := "www.googleapis.com"
    upstream_path := "/v1/x", revoked_at := none }

/-- The replaying create call, for C7. -/
def c7Params : CreateParams :=
  { userId := "u1", apiKeyId := "k1"
    upstreamUrl := { scheme := "https", username := "", password := ""
                     host := "www.googleapis.com", path := "/v1/x", query := [] }
    method := "GET", headers := [], bodyBase64 := none
    idempotencyKey := some "t1" }

/-- Base push session for the Git witnesses: default branch discovered,
default-branch pushes not allowed. -/
def c6Sess : GitSession :=
  { id := "g1", user_id := "u1", api_key_id := "k1", provider := "github"
    operation := "push", repo_owner := "o", repo_name := "r"
    status := "ACTIVE", approval_expires_at_ms := some 1000
    session_secret_hash := "sec", allow_default_branch_push := false
    deny_deletes := true, deny_tag_updates := true
    default_branch_ref := some "refs/heads/main" }

/-- A receive-pack command updating the discovered default branch. -/
def c6Cmd : ReceivePackCommand :=
  { oldSha := String.mk (List.replicate 40 'a')
    newSha := String.mk (List.replicate 40 'b')
    ref := "refs/heads/main" }

/-- An info/refs capability line carrying the HEAD symref. -/
def c6InfoRefsBody : List Char :=
  ("001e# service=git-receive-pack\n0000007f" ++
   String.mk (List.replicate 40 'a') ++
   " refs/heads/main\x00report-status symref=HEAD:refs/heads/main agent=git/2\n").toList

/-- The rejection text of each push-gate violation. -/
def pushRejectMessage : PushReject → String
  | .refDeletion => "ref deletion is not allowed"
  | .tagUpdate => "tag updates are not allowed"
  | .defaultBranch => "default branch push is not allowed for this session"

/-- A one-chunk receive-pack body whose single command deletes a ref. -/
def c10DeletionBody : List Char :=
  ("0063" ++ String.mk (List.replicate 40 'c') ++ " " ++
   String.mk (List.replicate 40 '0') ++ " refs/heads/y\n0000").toList

/-- An old object id that happens to contain "0000" as a substring. -/
def c2OldSha1 : String := "aaaa0000" ++ String.mk (List.replicate 32 'a')

/-- First chunk of the C2 body: one well-formed update command whose old
sha contains "0000". -/
def c2Chunk1 : List Char :=
  ("0063" ++ c2OldSha1 ++ " " ++ String.mk (List.replicate 40 'b') ++
   " refs/heads/x\n").toList

/-- Second chunk of the C2 body: a ref-deletion command (all-zero new
object id), still inside the command section. -/
def c2Chunk2 : List Char :=
  ("0063" ++ String.mk (List.replicate 40 'c') ++ " " ++
   String.mk (List.replicate 40 '0') ++ " refs/heads/y\n").toList

/-- Third chunk of the C2 body: the real flush packet ending the command
section. -/
def c2Chunk3 : List Char := "0000".toList

/-- A push session with no discovered default branch, for C2. -/
def c2Sess : GitSession :=
  { id := "g2", user_id := "u1", api_key_id := "k1", provider := "github"
    operation := "push", repo_owner := "o", repo_name := "r"
    status := "ACTIVE", approval_expires_at_ms := some 1000
    session_secret_hash := "sec", allow_default_branch_push := false
    deny_deletes := true, deny_tag_updates := true
    default_branch_ref := none }

/-! ## Helper lemmas -/

/-- `find?` commutes with a row update that does not change the fields
the search predicate reads. -/
theorem find?_map_of_pred_stable {α : Type} (p : α → Bool) (g : α → α)
    (l : List α) (hp : ∀ a, p (g a) = p a) :
    (l.map g).find? p = (l.find? p).map g := by
  induction l with
  | nil => rfl
  | cons a t ih =>
    by_cases h : p a
    · simp [List.find?, hp a, h]
    · simp only [List.map, List.find?, hp a]
      rw [Bool.of_not_eq_true h]
      simpa using ih

/-- On a request already in a terminal state, the execute handler
answers 410 `already_executed`, writes nothing, calls nothing. -/
theorem executeStep_of_terminal
    (db : List ProxyRequestRow) (auth : ApiKeyAuth) (rid : String)
    (now : Int) (env : ExecEnv) (row : ProxyRequestRow)
    (hfind : findRequestKeyScoped db rid auth.userId auth.apiKeyId = some row)
    (hterm : row.status = "SUCCEEDED" ∨ row.status = "FAILED") :
    executeStep db auth rid now env =
      { db := db, httpStatus := 410, errorCode := some "already_executed"
        bodyBytes := none, contentType := none, upstreamCalled := false } := by
  rcases hterm with hs | hs <;>
    simp [executeStep, hfind, hs]

/-- A successful bounded body read returns exactly the concatenation of
the upstream chunks. -/
theorem readBodyWithLimitGo_ok (maxBytes : Nat) :
    ∀ (chunks : List (List Nat)) (total : Nat) (bytes : List Nat),
      readBodyWithLimitGo maxBytes chunks total = .ok bytes →
      bytes = chunks.flatten := by
  intro chunks
  induction chunks with
  | nil =>
    intro total bytes h
    simp [readBodyWithLimitGo] at h
    simp [← h]
  | cons c cs ih =>
    intro total bytes h
    by_cases hcap : total + c.length > maxBytes
    · simp [readBodyWithLimitGo, hcap] at h
    · simp only [readBodyWithLimitGo, if_neg hcap] at h
      cases hrec : readBodyWithLimitGo maxBytes cs (total + c.length) with
      | error e => rw [hrec] at h; exact absurd h (by simp)
      | ok rest =>
        rw [hrec] at h
        simp at h
        rw [← h, ih _ rest hrec]
        simp

/-- A non-claim status write never counts as a claim. -/
theorem applyReqOp_not_claim (s : String) (op : ReqOp) (h : op ≠ .claim) :
    (applyReqOp s op).2 = false := by
  cases op <;>
    simp only [applyReqOp] <;>
    first
      | exact absurd rfl h
      | (split <;> rfl)

/-- A status other than `PENDING_APPROVAL` and `APPROVED` can never be
claimed again: no status write leads back to a claimable state. -/
theorem runReqOps_claims_zero (ops : List ReqOp) :
    ∀ s : String, s ≠ "PENDING_APPROVAL" → s ≠ "APPROVED" →
    (runReqOps s ops).2 = 0 := by
  induction ops with
  | nil => intro s _ _; rfl
  | cons op rest ih =>
    intro s hp ha
    have hP : (s == "PENDING_APPROVAL") = false := by simpa using hp
    have hA : (s == "APPROVED") = false := by simpa using ha
    cases op <;>
      simp [runReqOps, applyReqOp, hP, hA] <;>
      first
        | exact ih s hp ha
        | exact ih "SUCCEEDED" (by decide) (by decide)
        | exact ih "FAILED" (by decide) (by decide)

/-! ## C1 -/

/-- C1.  Execute succeeds at most once in a request's lifetime: on a
request already in a terminal state (`SUCCEEDED` or `FAILED`), the
execute handler answers HTTP 410 with the `already_executed` error,
leaves the database untouched and performs no upstream call; and across
any sequence of status writes the code base can issue against one row,
the conditional `APPROVED → EXECUTING` claim succeeds at most once, so at
most one caller ever reaches the upstream fetch. -/
theorem c1_execute_at_most_once
    (db : List ProxyRequestRow) (auth : ApiKeyAuth) (rid : String)
    (now : Int) (env : ExecEnv) (row : ProxyRequestRow)
    (hfind : findRequestKeyScoped db rid auth.userId auth.apiKeyId = some row)
    (hterm : row.status = "SUCCEEDED" ∨ row.status = "FAILED") :
    executeStep db auth rid now env =
      { db := db, httpStatus := 410, errorCode := some "already_executed"
        bodyBytes := none, contentType := none, upstreamCalled := false }
    ∧ ∀ (s : String) (ops : List ReqOp), (runReqOps s ops).2 ≤ 1 := by
  constructor
  · exact executeStep_of_terminal db auth rid now env row hfind hterm
  · intro s ops
    induction ops generalizing s with
    | nil => simp [runReqOps]
    | cons op rest ih =>
      cases op
      case claim =>
        by_cases hA : s = "APPROVED"
        · subst hA
          have h0 := runReqOps_claims_zero rest "EXECUTING" (by decide) (by decide)
          simp [runReqOps, applyReqOp, h0]
        · have hA' : (s == "APPROVED") = false := by simpa using hA
          simp only [runReqOps, applyReqOp, hA']
          simpa using ih s
      all_goals
        simp only [runReqOps]
        rw [applyReqOp_not_claim _ _ (by decide)]
        simpa using ih _

/-- Witness for C1 at a concrete already-succeeded request. -/
theorem c1_execute_at_most_once_witness :
    executeStep [c1SampleRow] { userId := "u1", apiKeyId := "k1" } "r1" 0
      { hasLinkedAccount := true, appSecretConfigured := true
        methodAllowed := true, urlAllowed := true, fetchResult := none } =
      { db := [c1SampleRow], httpStatus := 410
        errorCode := some "already_executed"
        bodyBytes := none, contentType := none, upstreamCalled := false }
    ∧ ∀ (s : String) (ops : List ReqOp), (runReqOps s ops).2 ≤ 1 :=
  c1_execute_at_most_once [c1SampleRow] { userId := "u1", apiKeyId := "k1" }
    "r1" 0
    { hasLinkedAccount := true, appSecretConfigured := true
      methodAllowed := true, urlAllowed := true, fetchResult := none }
    c1SampleRow (by decide) (Or.inl rfl)

/-! ## C3 -/

/-- Sorting by the key-then-value comparison is a function of the pair
multiset: the comparison is total, transitive and antisymmetric. -/
theorem sortQuery_eq_of_perm {q1 q2 : List (String × String)} (h : q1.Perm q2) :
    List.insertionSort qpLe q1 = List.insertionSort qpLe q2 :=
  List.eq_of_perm_of_sorted
    ((List.perm_insertionSort qpLe q1).trans
      (h.trans (List.perm_insertionSort qpLe q2).symm))
    (List.sorted_insertionSort qpLe q1)
    (List.sorted_insertionSort qpLe q2)

/-- A list sorted by key alone whose keys are pairwise distinct is also
sorted by key-then-value. -/
theorem sorted_hdrLe_to_qpLe {l : List (String × String)}
    (hs : l.Sorted hdrLe) (hn : (l.map Prod.fst).Nodup) : l.Sorted qpLe := by
  have hne : l.Pairwise fun a b : String × String => a.1 ≠ b.1 := by
    rw [List.Nodup, List.pairwise_map] at hn
    exact hn
  refine (hs.and hne).imp fun hab => ?_
  unfold qpLe
  rw [if_neg hab.2]
  exact lt_of_le_of_ne hab.1 fun h => hab.2 (String.ext h)

/-- With pairwise-distinct keys, the key-only stable sort is a function
of the pair multiset. -/
theorem sortHeaders_eq_of_perm_nodup {h1 h2 : List (String × String)}
    (hperm : h1.Perm h2) (hnd : (h1.map Prod.fst).Nodup) :
    List.insertionSort hdrLe h1 = List.insertionSort hdrLe h2 := by
  have hnd2' : (h2.map Prod.fst).Nodup := ((hperm.map Prod.fst).nodup_iff).mp hnd
  have hnd1 : ((List.insertionSort hdrLe h1).map Prod.fst).Nodup :=
    (((List.perm_insertionSort hdrLe h1).map Prod.fst).nodup_iff).mpr hnd
  have hnd2 : ((List.insertionSort hdrLe h2).map Prod.fst).Nodup :=
    (((List.perm_insertionSort hdrLe h2).map Prod.fst).nodup_iff).mpr hnd2'
  exact List.eq_of_perm_of_sorted
    ((List.perm_insertionSort hdrLe h1).trans
      (hperm.trans (List.perm_insertionSort hdrLe h2).symm))
    (sorted_hdrLe_to_qpLe (List.sorted_insertionSort hdrLe h1) hnd1)
    (sorted_hdrLe_to_qpLe (List.sorted_insertionSort hdrLe h2) hnd2)

/-- C3 (amended).  Canonicalization is deterministic for create inputs
whose header names do not collide after lower-casing: two calls with the
same method and body, URLs equal except for the order of the query
key/value multiset, and headers equal as a multiset up to name case and
ordering with pairwise-distinct lower-cased names, produce the same
canonical serialization — and therefore the same integrity hash, for any
hash function.  (The distinct-names proviso is forced by the
counterexample: with two header names that collide after lower-casing,
the later entry wins, so the entry order changes the canonical form.) -/
theorem c3_canonicalization_deterministic
    (method : String) (u1 u2 : Url) (h1 h2 : List (String × String))
    (body : Option String)
    (hs : u1.scheme = u2.scheme) (hh : u1.host = u2.host)
    (hp : u1.path = u2.path) (hq : u1.query.Perm u2.query)
    (hhd : (h1.map lowerPair).Perm (h2.map lowerPair))
    (hnd : ((h1.map lowerPair).map Prod.fst).Nodup) :
    canonicalPayload method u1 h1 body = canonicalPayload method u2 h2 body
    ∧ ∀ hashFn : String → String,
        hashFn (canonicalPayload method u1 h1 body) =
        hashFn (canonicalPayload method u2 h2 body) := by
  have hcanon : canonicalUrlString u1 = canonicalUrlString u2 := by
    simp only [canonicalUrlString, canonicalizeUrl, renderUrl]
    rw [hs, hh, hp, sortQuery_eq_of_perm hq]
  have hhdr : canonicalHeaders h1 = canonicalHeaders h2 := by
    simp only [canonicalHeaders]
    rw [sortHeaders_eq_of_perm_nodup hhd hnd]
  have hpay :
      canonicalPayload method u1 h1 body = canonicalPayload method u2 h2 body := by
    simp only [canonicalPayload]
    rw [hcanon, hhdr]
  exact ⟨hpay, fun f => congrArg f hpay⟩

/-- C3 as stated is false on the code: two create calls whose headers are
the same multiset up to header-name case and ordering (shown by the
permutation of the lower-cased pairs) — `Accept: a, ACCEPT: b` versus
`ACCEPT: b, Accept: a` — with identical method, URL and body, produce
different canonical serializations, because lower-casing makes the names
collide and the later entry wins. -/
theorem c3_counterexample :
    ((([("Accept", "a"), ("ACCEPT", "b")] : List (String × String)).map
        lowerPair).Perm
      (([("ACCEPT", "b"), ("Accept", "a")] : List (String × String)).map
        lowerPair))
    ∧ canonicalPayload "GET"
        { scheme := "https", username := "", password := ""
          host := "www.googleapis.com", path := "/drive/v3/files", query := [] }
        [("Accept", "a"), ("ACCEPT", "b")] none ≠
      canonicalPayload "GET"
        { scheme := "https", username := "", password := ""
          host := "www.googleapis.com", path := "/drive/v3/files", query := [] }
        [("ACCEPT", "b"), ("Accept", "a")] none := by
  constructor
  · decide
  · decide

/-- Witness for C3 (amended) at concrete reordered query parameters and
case-varied (but non-colliding) headers. -/
theorem c3_canonicalization_deterministic_witness :
    canonicalPayload "get"
      { scheme := "https", username := "", password := ""
        host := "www.googleapis.com", path := "/drive/v3/files"
        query := [("q", "z"), ("fields", "x"), ("q", "a")] }
      [("Accept", "application/json"), ("If-Match", "W7")] none =
    canonicalPayload "get"
      { scheme := "https", username := "", password := ""
        host := "www.googleapis.com", path := "/drive/v3/files"
        query := [("q", "a"), ("q", "z"), ("fields", "x")] }
      [("if-match", "W7"), ("accept", "application/json")] none
    ∧ (fun s => "sha256:" ++ s)
        (canonicalPayload "get"
          { scheme := "https", username := "", password := ""
            host := "www.googleapis.com", path := "/drive/v3/files"
            query := [("q", "z"), ("fields", "x"), ("q", "a")] }
          [("Accept", "application/json"), ("If-Match", "W7")] none) =
      (fun s => "sha256:" ++ s)
        (canonicalPayload "get"
          { scheme := "https", username := "", password := ""
            host := "www.googleapis.com", path := "/drive/v3/files"
            query := [("q", "a"), ("q", "z"), ("fields", "x")] }
          [("if-match", "W7"), ("accept", "application/json")] none) :=
  ⟨(c3_canonicalization_deterministic "get"
      { scheme := "https", username := "", password := ""
        host := "www.googleapis.com", path := "/drive/v3/files"
        query := [("q", "z"), ("fields", "x"), ("q", "a")] }
      { scheme := "https", username := "", password := ""
        host := "www.googleapis.com", path := "/drive/v3/files"
        query := [("q", "a"), ("q", "z"), ("fields", "x")] }
      [("Accept", "application/json"), ("If-Match", "W7")]
      [("if-match", "W7"), ("accept", "application/json")] none
      rfl rfl rfl (by decide) (by decide) (by decide)).1,
   (c3_canonicalization_deterministic "get"
      { scheme := "https", username := "", password := ""
        host := "www.googleapis.com", path := "/drive/v3/files"
        query := [("q", "z"), ("fields", "x"), ("q", "a")] }
      { scheme := "https", username := "", password := ""
        host := "www.googleapis.com", path := "/drive/v3/files"
        query := [("q", "a"), ("q", "z"), ("fields", "x")] }
      [("Accept", "application/json"), ("If-Match", "W7")]
      [("if-match", "W7"), ("accept", "application/json")] none
      rfl rfl rfl (by decide) (by decide) (by decide)).2
     (fun s => "sha256:" ++ s)⟩

/-! ## C4 -/

/-- C4.  A request whose approval deadline has elapsed before a decision
is observed as expired, never approved: Decide on a pending-but-expired
request transitions the row to `EXPIRED` and reports expiry instead of
honoring the decision, and Execute on an approved-but-expired request
transitions the row to `EXPIRED` and answers 408 `approval_expired`
before any claim or upstream call. -/
theorem c4_expiry_observed
    (dbD : List ProxyRequestRow) (approvalsD : List ApprovalRow)
    (ridD userIdD decisionD : String) (nowD : Int)
    (rowD : ProxyRequestRow) (eD : Int)
    (hfindD : (dbD.find? fun r => r.id == ridD && r.user_id == userIdD) = some rowD)
    (hpendD : rowD.status = "PENDING_APPROVAL")
    (hexpD : rowD.approval_expires_at_ms = some eD)
    (hlateD : nowD > eD)
    (dbE : List ProxyRequestRow) (authE : ApiKeyAuth) (ridE : String)
    (nowE : Int) (envE : ExecEnv) (rowE : ProxyRequestRow) (eE : Int)
    (hfindE : findRequestKeyScoped dbE ridE authE.userId authE.apiKeyId = some rowE)
    (happE : rowE.status = "APPROVED")
    (hexpE : rowE.approval_expires_at_ms = some eE)
    (hlateE : nowE > eE) :
    (decideProxyRequest dbD approvalsD ridD userIdD decisionD nowD =
       (decideLazyExpire dbD ridD userIdD, approvalsD, .expired)
     ∧ ((decideLazyExpire dbD ridD userIdD).find? fun r =>
          r.id == ridD && r.user_id == userIdD) =
         some { rowD with status := "EXPIRED", error_code := some "APPROVAL_EXPIRED" })
    ∧ (executeStep dbE authE ridE nowE envE =
         { db := execLazyExpire dbE rowE.id, httpStatus := 408
           errorCode := some "approval_expired"
           bodyBytes := none, contentType := none, upstreamCalled := false }
       ∧ findRequestKeyScoped (execLazyExpire dbE rowE.id) ridE
           authE.userId authE.apiKeyId =
         some { rowE with status := "EXPIRED", error_code := some "APPROVAL_EXPIRED" }) := by
  have hpropD := List.find?_some hfindD
  simp only [Bool.and_eq_true, beq_iff_eq] at hpropD
  have hpropE := List.find?_some hfindE
  simp only [findRequestKeyScoped] at hfindE
  simp only [findRequestKeyScoped, Bool.and_eq_true, beq_iff_eq] at hpropE
  refine ⟨⟨?_, ?_⟩, ?_, ?_⟩
  · simp [decideProxyRequest, hfindD, hpendD, hexpD, hlateD]
  · unfold decideLazyExpire
    rw [find?_map_of_pred_stable _ _ _ (fun a => by split <;> rfl)]
    rw [hfindD]
    simp [hpropD.1, hpropD.2, hpendD]
  · simp [executeStep, findRequestKeyScoped, hfindE, happE, hexpE, hlateE]
  · unfold findRequestKeyScoped execLazyExpire
    rw [find?_map_of_pred_stable _ _ _ (fun a => by split <;> rfl)]
    rw [hfindE]
    simp [hpropE.1.1, hpropE.1.2, hpropE.2, happE]

/-- Witness for C4 at concrete expired requests. -/
theorem c4_expiry_observed_witness :
    (decideProxyRequest [c4PendingRow] [] "rd" "u1" "approved" 2000 =
       (decideLazyExpire [c4PendingRow] "rd" "u1", [], .expired)
     ∧ ((decideLazyExpire [c4PendingRow] "rd" "u1").find? fun r =>
          r.id == "rd" && r.user_id == "u1") =
         some { c4PendingRow with status := "EXPIRED"
                                  error_code := some "APPROVAL_EXPIRED" })
    ∧ (executeStep [c4ApprovedRow] { userId := "u1", apiKeyId := "k1" } "re" 2000
         { hasLinkedAccount := true, appSecretConfigured := true
           methodAllowed := true, urlAllowed := true, fetchResult := none } =
         { db := execLazyExpire [c4ApprovedRow] c4ApprovedRow.id, httpStatus := 408
           errorCode := some "approval_expired"
           bodyBytes := none, contentType := none, upstreamCalled := false }
       ∧ findRequestKeyScoped (execLazyExpire [c4ApprovedRow] c4ApprovedRow.id)
           "re" "u1" "k1" =
         some { c4ApprovedRow with status := "EXPIRED"
                                   error_code := some "APPROVAL_EXPIRED" }) :=
  c4_expiry_observed [c4PendingRow] [] "rd" "u1" "approved" 2000
    c4PendingRow 1000 (by decide) rfl rfl (by decide)
    [c4ApprovedRow] { userId := "u1", apiKeyId := "k1" } "re" 2000
    { hasLinkedAccount := true, appSecretConfigured := true
      methodAllowed := true, urlAllowed := true, fetchResult := none }
    c4ApprovedRow 1000 (by decide) rfl rfl (by decide)

/-! ## C5 -/

/-- C5.  Execute is authorized only for the exact ApiKey that created the
request: when every row with the request's id and the caller's user id
carries a different key than the caller presents — in particular when a
different key of the same user is presented — the execute handler
answers 403 `forbidden` and leaves the database completely unchanged,
with no upstream call. -/
theorem c5_execute_wrong_key_forbidden
    (db : List ProxyRequestRow) (auth : ApiKeyAuth) (rid : String)
    (now : Int) (env : ExecEnv)
    (hkeys : ∀ r ∈ db, r.id = rid → r.user_id = auth.userId →
       r.api_key_id ≠ auth.apiKeyId) :
    executeStep db auth rid now env =
      { db := db, httpStatus := 403, errorCode := some "forbidden"
        bodyBytes := none, contentType := none, upstreamCalled := false } := by
  have hnone : findRequestKeyScoped db rid auth.userId auth.apiKeyId = none := by
    unfold findRequestKeyScoped
    rw [List.find?_eq_none]
    intro r hr hc
    simp only [Bool.and_eq_true, beq_iff_eq] at hc
    exact hkeys r hr hc.1.1 hc.1.2 hc.2
  simp [executeStep, hnone]

/-- Witness for C5: a request created with key k1 and an execute call by
the same user presenting k2. -/
theorem c5_execute_wrong_key_forbidden_witness :
    executeStep [c1SampleRow] { userId := "u1", apiKeyId := "k2" } "r1" 0
      { hasLinkedAccount := true, appSecretConfigured := true
        methodAllowed := true, urlAllowed := true, fetchResult := none } =
      { db := [c1SampleRow], httpStatus := 403, errorCode := some "forbidden"
        bodyBytes := none, contentType := none, upstreamCalled := false } :=
  c5_execute_wrong_key_forbidden [c1SampleRow]
    { userId := "u1", apiKeyId := "k2" } "r1" 0
    { hasLinkedAccount := true, appSecretConfigured := true
      methodAllowed := true, urlAllowed := true, fetchResult := none }
    (by decide)

/-! ## C8 -/

/-- C8.  When the upstream fetch of an executed request completes (the
fetch returns and the bounded body read succeeds), a 2xx status
terminates the request as `SUCCEEDED` and any other status terminates it
as `FAILED` with error code `UPSTREAM_HTTP_<code>`; in both cases the
upstream body bytes, status code and content type are relayed to the
caller verbatim, and the row is terminal afterwards so a second execute
call answers 410 `already_executed` — the response is delivered exactly
once. -/
theorem c8_upstream_terminal_relay
    (db : List ProxyRequestRow) (auth : ApiKeyAuth) (rid : String)
    (now now2 : Int) (res : UpstreamResult) (env2 : ExecEnv)
    (row : ProxyRequestRow) (e : Int) (bytes : List Nat)
    (hfind : findRequestKeyScoped db rid auth.userId auth.apiKeyId = some row)
    (happ : row.status = "APPROVED")
    (hexp : row.approval_expires_at_ms = some e)
    (hok : ¬ now > e)
    (hclaim : claimChanges db rid auth.apiKeyId = 1)
    (hread : readBodyWithLimit res.bodyChunks (1024 * 1024) = .ok bytes) :
    executeStep db auth rid now
      { hasLinkedAccount := true, appSecretConfigured := true
        methodAllowed := true, urlAllowed := true, fetchResult := some res } =
      { db := terminalUpdate (claimUpdate db rid auth.apiKeyId) rid
          (if 200 ≤ res.status ∧ res.status < 300 then "SUCCEEDED" else "FAILED")
          res.status res.contentType res.bodyChunks.flatten.length
          (if 200 ≤ res.status ∧ res.status < 300 then none
           else some ("UPSTREAM_HTTP_" ++ toString res.status))
        httpStatus := res.status
        errorCode := none
        bodyBytes := some res.bodyChunks.flatten
        contentType := res.contentType
        upstreamCalled := true }
    ∧ findRequestKeyScoped
        (terminalUpdate (claimUpdate db rid auth.apiKeyId) rid
          (if 200 ≤ res.status ∧ res.status < 300 then "SUCCEEDED" else "FAILED")
          res.status res.contentType res.bodyChunks.flatten.length
          (if 200 ≤ res.status ∧ res.status < 300 then none
           else some ("UPSTREAM_HTTP_" ++ toString res.status)))
        rid auth.userId auth.apiKeyId =
      some { row with
        status := if 200 ≤ res.status ∧ res.status < 300 then "SUCCEEDED" else "FAILED"
        upstream_http_status := some res.status
        upstream_content_type := res.contentType
        upstream_bytes := some res.bodyChunks.flatten.length
        error_code := if 200 ≤ res.status ∧ res.status < 300 then none
          else some ("UPSTREAM_HTTP_" ++ toString res.status) }
    ∧ executeStep
        (terminalUpdate (claimUpdate db rid auth.apiKeyId) rid
          (if 200 ≤ res.status ∧ res.status < 300 then "SUCCEEDED" else "FAILED")
          res.status res.contentType res.bodyChunks.flatten.length
          (if 200 ≤ res.status ∧ res.status < 300 then none
           else some ("UPSTREAM_HTTP_" ++ toString res.status)))
        auth rid now2 env2 =
      { db := terminalUpdate (claimUpdate db rid auth.apiKeyId) rid
          (if 200 ≤ res.status ∧ res.status < 300 then "SUCCEEDED" else "FAILED")
          res.status res.contentType res.bodyChunks.flatten.length
          (if 200 ≤ res.status ∧ res.status < 300 then none
           else some ("UPSTREAM_HTTP_" ++ toString res.status))
        httpStatus := 410, errorCode := some "already_executed"
        bodyBytes := none, contentType := none, upstreamCalled := false } := by
  have hprop := List.find?_some hfind
  simp only [findRequestKeyScoped, Bool.and_eq_true, beq_iff_eq] at hprop
  have hid : row.id = rid := hprop.1.1
  have hkey : row.api_key_id = auth.apiKeyId := hprop.2
  have hbytes : bytes = res.bodyChunks.flatten :=
    readBodyWithLimitGo_ok (1024 * 1024) res.bodyChunks 0 bytes hread
  have hfind2 : findRequestKeyScoped
      (terminalUpdate (claimUpdate db rid auth.apiKeyId) rid
        (if 200 ≤ res.status ∧ res.status < 300 then "SUCCEEDED" else "FAILED")
        res.status res.contentType res.bodyChunks.flatten.length
        (if 200 ≤ res.status ∧ res.status < 300 then none
         else some ("UPSTREAM_HTTP_" ++ toString res.status)))
      rid auth.userId auth.apiKeyId =
      some { row with
        status := if 200 ≤ res.status ∧ res.status < 300 then "SUCCEEDED" else "FAILED"
        upstream_http_status := some res.status
        upstream_content_type := res.contentType
        upstream_bytes := some res.bodyChunks.flatten.length
        error_code := if 200 ≤ res.status ∧ res.status < 300 then none
          else some ("UPSTREAM_HTTP_" ++ toString res.status) } := by
    unfold findRequestKeyScoped terminalUpdate claimUpdate
    rw [find?_map_of_pred_stable _ _ _ (fun a => by split <;> rfl)]
    rw [find?_map_of_pred_stable _ _ _ (fun a => by split <;> rfl)]
    unfold findRequestKeyScoped at hfind
    rw [hfind]
    simp [hid, hkey, happ]
  have hread' : readBodyWithLimitGo 1048576 res.bodyChunks 0 = .ok bytes := hread
  refine ⟨?_, hfind2, ?_⟩
  · by_cases hP : 200 ≤ res.status ∧ res.status < 300
    · simp [executeStep, hfind, happ, hexp, hok, hid, hkey, hclaim,
            executeClaimed, readBodyWithLimit, hread', hbytes, hP]
    · simp [executeStep, hfind, happ, hexp, hok, hid, hkey, hclaim,
            executeClaimed, readBodyWithLimit, hread', hbytes, hP]
  · apply executeStep_of_terminal _ _ _ _ _ _ hfind2
    by_cases hP : 200 ≤ res.status ∧ res.status < 300
    · simp [hP]
    · simp [hP]

/-- Witness for C8: a stub upstream answering 200 with body "hi". -/
theorem c8_upstream_terminal_relay_witness :
    executeStep [c8Row] { userId := "u1", apiKeyId := "k1" } "r8" 0
      { hasLinkedAccount := true, appSecretConfigured := true
        methodAllowed := true, urlAllowed := true
        fetchResult := some { status := 200, contentType := some "text/plain"
                              bodyChunks := [[104], [105]] } } =
      { db := terminalUpdate (claimUpdate [c8Row] "r8" "k1") "r8"
          (if 200 ≤ 200 ∧ 200 < 300 then "SUCCEEDED" else "FAILED")
          200 (some "text/plain") ([[104], [105]] : List (List Nat)).flatten.length
          (if 200 ≤ 200 ∧ 200 < 300 then none
           else some ("UPSTREAM_HTTP_" ++ toString 200))
        httpStatus := 200
        errorCode := none
        bodyBytes := some ([[104], [105]] : List (List Nat)).flatten
        contentType := some "text/plain"
        upstreamCalled := true }
    ∧ findRequestKeyScoped
        (terminalUpdate (claimUpdate [c8Row] "r8" "k1") "r8"
          (if 200 ≤ 200 ∧ 200 < 300 then "SUCCEEDED" else "FAILED")
          200 (some "text/plain") ([[104], [105]] : List (List Nat)).flatten.length
          (if 200 ≤ 200 ∧ 200 < 300 then none
           else some ("UPSTREAM_HTTP_" ++ toString 200)))
        "r8" "u1" "k1" =
      some { c8Row with
        status := if 200 ≤ 200 ∧ 200 < 300 then "SUCCEEDED" else "FAILED"
        upstream_http_status := some 200
        upstream_content_type := some "text/plain"
        upstream_bytes := some ([[104], [105]] : List (List Nat)).flatten.length
        error_code := if 200 ≤ 200 ∧ 200 < 300 then none
          else some ("UPSTREAM_HTTP_" ++ toString 200) }
    ∧ executeStep
        (terminalUpdate (claimUpdate [c8Row] "r8" "k1") "r8"
          (if 200 ≤ 200 ∧ 200 < 300 then "SUCCEEDED" else "FAILED")
          200 (some "text/plain") ([[104], [105]] : List (List Nat)).flatten.length
          (if 200 ≤ 200 ∧ 200 < 300 then none
           else some ("UPSTREAM_HTTP_" ++ toString 200)))
        { userId := "u1", apiKeyId := "k1" } "r8" 7
        { hasLinkedAccount := true, appSecretConfigured := true
          methodAllowed := true, urlAllowed := true, fetchResult := none } =
      { db := terminalUpdate (claimUpdate [c8Row] "r8" "k1") "r8"
          (if 200 ≤ 200 ∧ 200 < 300 then "SUCCEEDED" else "FAILED")
          200 (some "text/plain") ([[104], [105]] : List (List Nat)).flatten.length
          (if 200 ≤ 200 ∧ 200 < 300 then none
           else some ("UPSTREAM_HTTP_" ++ toString 200))
        httpStatus := 410, errorCode := some "already_executed"
        bodyBytes := none, contentType := none, upstreamCalled := false } :=
  c8_upstream_terminal_relay [c8Row] { userId := "u1", apiKeyId := "k1" } "r8"
    0 7 { status := 200, contentType := some "text/plain"
          bodyChunks := [[104], [105]] }
    { hasLinkedAccount := true, appSecretConfigured := true
      methodAllowed := true, urlAllowed := true, fetchResult := none }
    c8Row 5000 [104, 105] (by decide) rfl rfl (by decide) (by decide) rfl

/-! ## C7 -/

/-- C7 (amended).  Idempotent creation: a second Create call presenting
the same caller key and idempotency token returns the original record's
id, hash and deadline, inserts no new row, sends no message at all to the
Decision Channel (neither a prompt nor a notification), and performs no
new hash comparison — the outcome is independent of the hash function,
the fresh id and the clock.  The returned status is the stored status,
except for one code path the original claim misses: when a non-revoked
always-allow rule matches the replaying call and the stored record is
still `PENDING_APPROVAL`, the record is auto-approved
(`PENDING_APPROVAL → APPROVED`) exactly as on a fresh create. -/
theorem c7_idempotent_replay
    (hashFn1 hashFn2 : String → String) (newId1 newId2 : String)
    (now1 now2 ttl1 ttl2 : Int) (db : List ProxyRequestRow)
    (rules : List AlwaysAllowRule) (auth : ApiKeyAuth)
    (requesterIp : Option String) (p : CreateParams) (telegramOk : Bool)
    (tok : String) (existing : ProxyRequestRow)
    (htok : p.idempotencyKey = some tok)
    (hvalid : validateUpstreamUrl p.upstreamUrl = .ok p.upstreamUrl)
    (hfind : (db.find? fun r =>
        r.api_key_id == auth.apiKeyId && r.idempotency_key == some tok) =
      some existing) :
    handleCreateRequest hashFn1 newId1 now1 ttl1 db rules auth requesterIp
      p telegramOk =
      .ok (replayHandleResult db auth
        (effectiveAlwaysAllow rules auth requesterIp p) existing)
    ∧ handleCreateRequest hashFn2 newId2 now2 ttl2 db rules auth requesterIp
        p telegramOk =
      handleCreateRequest hashFn1 newId1 now1 ttl1 db rules auth requesterIp
        p telegramOk
    ∧ (replayHandleResult db auth
        (effectiveAlwaysAllow rules auth requesterIp p) existing).db.length =
      db.length := by
  have hcreate : ∀ (f : String → String) (nid : String) (nw tl : Int),
      createProxyRequest f nid nw tl db
        { p with userId := auth.userId, apiKeyId := auth.apiKeyId } =
      .ok (db, replayResult existing) := by
    intro f nid nw tl
    simp [createProxyRequest, hvalid, htok, hfind, replayResult, Except.bind]
  have hmain : ∀ (f : String → String) (nid : String) (nw tl : Int),
      handleCreateRequest f nid nw tl db rules auth requesterIp p telegramOk =
      .ok (replayHandleResult db auth
        (effectiveAlwaysAllow rules auth requesterIp p) existing) := by
    intro f nid nw tl
    by_cases hcond : (effectiveAlwaysAllow rules auth requesterIp p
        && existing.status == "PENDING_APPROVAL") = true
    · simp only [effectiveAlwaysAllow, Bool.and_eq_true, beq_iff_eq] at hcond
      simp [handleCreateRequest, hcreate, Except.bind, postCreate, replayResult,
            replayHandleResult, effectiveAlwaysAllow, hcond]
    · simp only [effectiveAlwaysAllow, Bool.and_eq_true, beq_iff_eq] at hcond
      simp [handleCreateRequest, hcreate, Except.bind, postCreate, replayResult,
            replayHandleResult, effectiveAlwaysAllow, hcond]
  refine ⟨hmain hashFn1 newId1 now1 ttl1,
          (hmain hashFn2 newId2 now2 ttl2).trans
            (hmain hashFn1 newId1 now1 ttl1).symm, ?_⟩
  unfold replayHandleResult
  by_cases haa : (effectiveAlwaysAllow rules auth requesterIp p
      && existing.status == "PENDING_APPROVAL") = true
  · simp [haa, autoApproveUpdate]
  · simp [haa]

/-! ## C9 -/

/-- C9.  The always-allow lookup is keyed exactly by (user, API key,
caller network address, upper-cased method, upstream host, upstream
path) with the query string excluded from the key; and when a matching
non-revoked rule exists for a fresh create, the handler immediately
follows insertion with an automatic `PENDING_APPROVAL → APPROVED`
transition and sends the notification-only message instead of the
interactive approve/deny prompt. -/
theorem c9_always_allow_auto_approve
    (hashFn : String → String) (newId : String) (now ttl : Int)
    (db : List ProxyRequestRow) (rules rules0 : List AlwaysAllowRule)
    (auth : ApiKeyAuth) (ip : String) (p : CreateParams)
    (k9 i9 m9 uid0 kid0 ip0 m0 : String) (ua ub u0 : Url)
    (hhost : ua.host = ub.host) (hpath : ua.path = ub.path)
    (hvalid : validateUpstreamUrl p.upstreamUrl = .ok p.upstreamUrl)
    (htok : p.idempotencyKey = none)
    (hrule : hasAlwaysAllowRule rules auth.userId auth.apiKeyId ip
      p.method p.upstreamUrl = true)
    (hfresh : ∀ r ∈ db, r.id ≠ newId) :
    getAlwaysAllowKey k9 i9 m9 ua = getAlwaysAllowKey k9 i9 m9 ub
    ∧ (hasAlwaysAllowRule rules0 uid0 kid0 ip0 m0 u0 = true ↔
        ∃ r ∈ rules0, r.user_id = uid0 ∧ r.api_key_id = kid0 ∧
          r.requester_ip = ip0 ∧ r.method = jsToUpper m0 ∧
          r.upstream_host = u0.host ∧
          r.upstream_path = (if u0.path = "" then "/" else u0.path) ∧
          r.revoked_at = none)
    ∧ handleCreateRequest hashFn newId now ttl db rules auth (some ip) p true =
        .ok (autoApprovedHandleResult hashFn newId now ttl db auth p)
    ∧ ((autoApprovedHandleResult hashFn newId now ttl db auth p).db.find?
          fun r => r.id == newId) =
        some { insertedRow hashFn newId now ttl
            { p with userId := auth.userId, apiKeyId := auth.apiKeyId } with
          status := "APPROVED", error_code := none } := by
  have hcreate : createProxyRequest hashFn newId now ttl db
      { p with userId := auth.userId, apiKeyId := auth.apiKeyId } =
      .ok (db ++ [insertedRow hashFn newId now ttl
             { p with userId := auth.userId, apiKeyId := auth.apiKeyId }],
           insertedResult hashFn newId now ttl
             { p with userId := auth.userId, apiKeyId := auth.apiKeyId }) := by
    simp [createProxyRequest, hvalid, htok, Except.bind]
  refine ⟨?_, ?_, ?_, ?_⟩
  · unfold getAlwaysAllowKey
    rw [hhost, hpath]
  · simp only [hasAlwaysAllowRule, getAlwaysAllowKey, List.any_eq_true,
      Bool.and_eq_true, beq_iff_eq]
    tauto
  · simp [handleCreateRequest, hcreate, Except.bind, postCreate,
          insertedResult, hrule, autoApprovedHandleResult]
  · unfold autoApprovedHandleResult autoApproveUpdate
    rw [find?_map_of_pred_stable _ _ _ (fun a => by split <;> rfl)]
    have hnone : (db.find? fun r => r.id == newId) = none := by
      rw [List.find?_eq_none]
      intro r hr hc
      exact hfresh r hr (by simpa using hc)
    simp [hnone, insertedRow]

/-- Witness for C9 at a concrete fresh create with a matching rule. -/
theorem c9_always_allow_auto_approve_witness :
    getAlwaysAllowKey "k1" "9.9.9.9" "get"
      { scheme := "https", username := "", password := ""
        host := "www.googleapis.com", path := "/v1/x", query := [("a", "1")] } =
    getAlwaysAllowKey "k1" "9.9.9.9" "get"
      { scheme := "https", username := "", password := ""
        host := "www.googleapis.com", path := "/v1/x", query := [] }
    ∧ hasAlwaysAllowRule [c9Rule] "u1" "k1" "9.9.9.9" "GET"
        c9Params.upstreamUrl = true
    ∧ handleCreateRequest (fun _ => "h9") "n9" 0 120000 [] [c9Rule]
        { userId := "u1", apiKeyId := "k1" } (some "9.9.9.9") c9Params true =
      .ok (autoApprovedHandleResult (fun _ => "h9") "n9" 0 120000 []
        { userId := "u1", apiKeyId := "k1" } c9Params)
    ∧ ((autoApprovedHandleResult (fun _ => "h9") "n9" 0 120000 []
          { userId := "u1", apiKeyId := "k1" } c9Params).db.find?
          fun r => r.id == "n9") =
      some { insertedRow (fun _ => "h9") "n9" 0 120000
          { c9Params with userId := "u1", apiKeyId := "k1" } with
        status := "APPROVED", error_code := none } :=
  ⟨(c9_always_allow_auto_approve (fun _ => "h9") "n9" 0 120000 [] [c9Rule]
      [c9Rule] { userId := "u1", apiKeyId := "k1" } "9.9.9.9" c9Params
      "k1" "9.9.9.9" "get" "u1" "k1" "9.9.9.9" "GET"
      { scheme := "https", username := "", password := ""
        host := "www.googleapis.com", path := "/v1/x", query := [("a", "1")] }
      { scheme := "https", username := "", password := ""
        host := "www.googleapis.com", path := "/v1/x", query := [] }
      c9Params.upstreamUrl rfl rfl rfl rfl (by decide) (by decide)).1,
   by decide,
   (c9_always_allow_auto_approve (fun _ => "h9") "n9" 0 120000 [] [c9Rule]
      [c9Rule] { userId := "u1", apiKeyId := "k1" } "9.9.9.9" c9Params
      "k1" "9.9.9.9" "get" "u1" "k1" "9.9.9.9" "GET"
      { scheme := "https", username := "", password := ""
        host := "www.googleapis.com", path := "/v1/x", query := [("a", "1")] }
      { scheme := "https", username := "", password := ""
        host := "www.googleapis.com", path := "/v1/x", query := [] }
      c9Params.upstreamUrl rfl rfl rfl rfl (by decide) (by decide)).2.2.1,
   (c9_always_allow_auto_approve (fun _ => "h9") "n9" 0 120000 [] [c9Rule]
      [c9Rule] { userId := "u1", apiKeyId := "k1" } "9.9.9.9" c9Params
      "k1" "9.9.9.9" "get" "u1" "k1" "9.9.9.9" "GET"
      { scheme := "https", username := "", password := ""
        host := "www.googleapis.com", path := "/v1/x", query := [("a", "1")] }
      { scheme := "https", username := "", password := ""
        host := "www.googleapis.com", path := "/v1/x", query := [] }
      c9Params.upstreamUrl rfl rfl rfl rfl (by decide) (by decide)).2.2.2⟩

/-- C7 as stated is false on the code: replaying a create call (same key
k1 and token t1) while an always-allow rule matches the caller flips the
still-pending stored record to `APPROVED` — the call does not return the
original record unchanged (the status differs and the row is mutated). -/
theorem c7_counterexample :
    (handleCreateRequest (fun _ => "newHash") "fresh" 0 120000 [c7PendingRow]
        [c7Rule] { userId := "u1", apiKeyId := "k1" } (some "9.9.9.9")
        c7Params true).toOption.map
        (fun r => (r.requestId, r.isNew, r.finalStatus)) =
      some ("r7", false, "APPROVED")
    ∧ c7PendingRow.status = "PENDING_APPROVAL"
    ∧ (handleCreateRequest (fun _ => "newHash") "fresh" 0 120000 [c7PendingRow]
        [c7Rule] { userId := "u1", apiKeyId := "k1" } (some "9.9.9.9")
        c7Params true).toOption.map HandleCreateResult.db ≠
      some [c7PendingRow] := by
  refine ⟨by decide, rfl, by decide⟩

/-- Witness for C7 (amended) at the concrete replayed call. -/
theorem c7_idempotent_replay_witness :
    handleCreateRequest (fun _ => "newHash") "fresh" 0 120000 [c7PendingRow]
      [c7Rule] { userId := "u1", apiKeyId := "k1" } (some "9.9.9.9")
      c7Params true =
      .ok (replayHandleResult [c7PendingRow] { userId := "u1", apiKeyId := "k1" }
        (effectiveAlwaysAllow [c7Rule] { userId := "u1", apiKeyId := "k1" }
          (some "9.9.9.9") c7Params) c7PendingRow)
    ∧ handleCreateRequest (fun _ => "otherHash") "fresh2" 77 60000 [c7PendingRow]
        [c7Rule] { userId := "u1", apiKeyId := "k1" } (some "9.9.9.9")
        c7Params true =
      handleCreateRequest (fun _ => "newHash") "fresh" 0 120000 [c7PendingRow]
        [c7Rule] { userId := "u1", apiKeyId := "k1" } (some "9.9.9.9")
        c7Params true
    ∧ (replayHandleResult [c7PendingRow] { userId := "u1", apiKeyId := "k1" }
        (effectiveAlwaysAllow [c7Rule] { userId := "u1", apiKeyId := "k1" }
          (some "9.9.9.9") c7Params) c7PendingRow).db.length =
      ([c7PendingRow] : List ProxyRequestRow).length :=
  c7_idempotent_replay (fun _ => "newHash") (fun _ => "otherHash") "fresh"
    "fresh2" 0 77 120000 60000 [c7PendingRow] [c7Rule]
    { userId := "u1", apiKeyId := "k1" } (some "9.9.9.9") c7Params true
    "t1" c7PendingRow rfl rfl (by decide)

/-! ## C6 -/

/-- C6.  For a push session whose default-branch ref has been discovered,
a receive-pack command updating that ref makes the command gate reject
the call when the allow-default-branch-push flag is unset; with the flag
set, the gate never rejects on that ground.  The default-branch ref is
obtained by scanning the info/refs response for the HEAD symref
capability, and is stored only once — a later observation never
overwrites an existing value. -/
theorem c6_default_branch_gate
    (sessA sessB sessC sessD : GitSession)
    (cmdsA cmdsB : List ReceivePackCommand)
    (d refC refD x : String) (cmd : ReceivePackCommand) (bodyC : List Char)
    (hdA : sessA.default_branch_ref = some d)
    (hoffA : sessA.allow_default_branch_push = false)
    (hmem : cmd ∈ cmdsA) (href : cmd.ref = d)
    (honB : sessB.allow_default_branch_push = true)
    (hnC : sessC.default_branch_ref = none)
    (hex : extractSymrefHeadFromInfoRefs (bodyC.take (64 * 1024)) = some refC)
    (hsD : sessD.default_branch_ref = some x) :
    (checkCommands sessA cmdsA).isSome = true
    ∧ checkCommands sessB cmdsB ≠ some .defaultBranch
    ∧ (applyInfoRefsDiscovery sessC bodyC).default_branch_ref = some refC
    ∧ storeDefaultBranchRef sessD refD = sessD := by
  refine ⟨?_, ?_, ?_, ?_⟩
  · induction cmdsA with
    | nil => cases hmem
    | cons c rest ih =>
      by_cases h1 : isAllZeroSha c.newSha = true
      · simp [checkCommands, h1]
      · by_cases h2 : jsStartsWith c.ref "refs/tags/" = true
        · simp [checkCommands, h1, h2]
        · rcases List.mem_cons.mp hmem with h | h
          · subst h
            simp only [checkCommands, h1, h2]
            simp only [Bool.false_eq_true, if_false]
            rw [hdA]
            simp [href, hoffA]
          · simp only [checkCommands, h1, h2]
            simp only [Bool.false_eq_true, if_false]
            split
            · simp
            · exact ih h
  · induction cmdsB with
    | nil => simp [checkCommands]
    | cons c rest ih =>
      by_cases h1 : isAllZeroSha c.newSha = true
      · simp [checkCommands, h1]
      · by_cases h2 : jsStartsWith c.ref "refs/tags/" = true
        · simp [checkCommands, h1, h2]
        · simpa [checkCommands, h1, h2, honB] using ih
  · simp [applyInfoRefsDiscovery, hex, storeDefaultBranchRef, hnC]
  · simp [storeDefaultBranchRef, hsD]

/-- Witness for C6 at a concrete session, command list and info/refs
body. -/
theorem c6_default_branch_gate_witness :
    (checkCommands c6Sess [c6Cmd]).isSome = true
    ∧ checkCommands { c6Sess with allow_default_branch_push := true } [c6Cmd] ≠
        some .defaultBranch
    ∧ (applyInfoRefsDiscovery { c6Sess with default_branch_ref := none }
        c6InfoRefsBody).default_branch_ref = some "refs/heads/main"
    ∧ storeDefaultBranchRef c6Sess "refs/heads/other" = c6Sess :=
  c6_default_branch_gate c6Sess
    { c6Sess with allow_default_branch_push := true }
    { c6Sess with default_branch_ref := none } c6Sess
    [c6Cmd] [c6Cmd] "refs/heads/main" "refs/heads/main" "refs/heads/other"
    "refs/heads/main" c6Cmd c6InfoRefsBody
    rfl rfl (by decide) rfl rfl rfl (by decide) rfl

/-! ## C10 -/

/-- C10.  A receive-pack proxy call on an `APPROVED` or `ACTIVE` push
session marks the session `USED` before the body's command section is
inspected: whatever the body is, the session ends the call in status
`USED`; a call whose body the push-safety gate rejects still answers 403
with the session consumed; and a retry on the now-`USED` session is
refused with 410 `used`. -/
theorem c10_push_session_consumed
    (hashFn : String → String) (sess sessU : GitSession)
    (secret owner repo : String)
    (chunks : List (List Char)) (chunks2 : List (List Char))
    (cmds : List ReceivePackCommand) (rej : PushReject)
    (hsec : hashFn secret = sess.session_secret_hash)
    (hprov : sess.provider = "github")
    (howner : sess.repo_owner = owner) (hrepo : sess.repo_name = repo)
    (hst : sess.status = "APPROVED" ∨ sess.status = "ACTIVE")
    (hop : sess.operation = "push")
    (hparse : parseReceivePackCommands
        (readPrefixUntilFlush chunks (256 * 1024)).pre.flatten = some cmds)
    (hrej : checkCommands { sess with status := "USED" } cmds = some rej)
    (hsecU : hashFn secret = sessU.session_secret_hash)
    (hprovU : sessU.provider = "github")
    (hownerU : sessU.repo_owner = owner) (hrepoU : sessU.repo_name = repo)
    (husedU : sessU.status = "USED") :
    (gitProxyStep hashFn sess secret owner repo "/git-receive-pack" "POST"
        none (some chunks2) true).sess.status = "USED"
    ∧ gitProxyStep hashFn sess secret owner repo "/git-receive-pack" "POST"
        none (some chunks) true =
      { sess := { sess with status := "USED" }
        outcome := .reject 403 (pushRejectMessage rej) }
    ∧ gitProxyStep hashFn sessU secret owner repo "/git-receive-pack" "POST"
        none (some chunks) true =
      { sess := sessU, outcome := .reject 410 "used" } := by
  refine ⟨?_, ?_, ?_⟩
  · rcases hst with h | h <;>
      simp only [gitProxyStep, isAllowedGitPath, methodAllowed, isReadOperation,
        markGitSessionUsed] <;>
      simp [hsec, hprov, howner, hrepo, h, hop] <;>
      split <;>
      first
        | rfl
        | (split <;> rfl)
  · have hrej' := hrej
    simp only [hprov, howner, hrepo, hop] at hrej'
    rcases hst with h | h <;>
      cases rej <;>
      simp [gitProxyStep, hsec, hprov, howner, hrepo, h, hop, hparse, hrej',
        markGitSessionUsed, isReadOperation, isAllowedGitPath, methodAllowed,
        pushRejectMessage]
  · simp [gitProxyStep, hsecU, hprovU, hownerU, hrepoU, husedU,
      isAllowedGitPath, methodAllowed]

/-- Witness for C10: a push session, a body whose single command is a
ref deletion, and a retry on the consumed session. -/
theorem c10_push_session_consumed_witness :
    (gitProxyStep (fun s => s) { c6Sess with status := "APPROVED" } "sec" "o"
        "r" "/git-receive-pack" "POST" none (some []) true).sess.status = "USED"
    ∧ gitProxyStep (fun s => s) { c6Sess with status := "APPROVED" } "sec" "o"
        "r" "/git-receive-pack" "POST" none
        (some [c10DeletionBody]) true =
      { sess := { c6Sess with status := "USED" }
        outcome := .reject 403 (pushRejectMessage .refDeletion) }
    ∧ gitProxyStep (fun s => s) { c6Sess with status := "USED" } "sec" "o" "r"
        "/git-receive-pack" "POST" none (some [c10DeletionBody]) true =
      { sess := { c6Sess with status := "USED" }
        outcome := .reject 410 "used" } :=
  c10_push_session_consumed (fun s => s) { c6Sess with status := "APPROVED" }
    { c6Sess with status := "USED" } "sec" "o" "r" [c10DeletionBody] []
    [{ oldSha := String.mk (List.replicate 40 'c')
       newSha := String.mk (List.replicate 40 '0')
       ref := "refs/heads/y" }] .refDeletion
    rfl rfl rfl rfl (Or.inl rfl) rfl (by decide) (by decide)
    rfl rfl rfl rfl rfl

/-! ## C2 -/

set_option maxRecDepth 65536 in
/-- C2 is the intent of the code (its documentation says ref deletions
are always blocked), but the code's prefix buffering breaks it at a chunk
boundary: `readPrefixUntilFlush` stops buffering as soon as the decoded
text contains "0000" anywhere, so when a sha in an early chunk contains
"0000", a deletion command in a later chunk of the command section is
never parsed — the call is not rejected and the full body, deletion
included, is forwarded byte-identically to the upstream Git host.  This
theorem evaluates the handler on such a body: the command section of the
whole body does contain an all-zero-new-id command (first conjunct), yet
the proxy call forwards upstream instead of answering 403 (second
conjunct). -/

theorem c2_chunk_boundary_bypasses_push_gate :
    (parseReceivePackCommands (c2Chunk1 ++ c2Chunk2 ++ c2Chunk3) =
      some [{ oldSha := c2OldSha1
              newSha := String.mk (List.replicate 40 'b')
              ref := "refs/heads/x" },
            { oldSha := String.mk (List.replicate 40 'c')
              newSha := String.mk (List.replicate 40 '0')
              ref := "refs/heads/y" }]
     ∧ isAllZeroSha (String.mk (List.replicate 40 '0')) = true)
    ∧ gitProxyStep (fun s => s) c2Sess "sec" "o" "r" "/git-receive-pack"
        "POST" none (some [c2Chunk1, c2Chunk2, c2Chunk3]) true =
      { sess := { c2Sess with status := "USED" }
        outcome := .forwardUpstream
          (some ([c2Chunk1, c2Chunk2, c2Chunk3] : List (List Char)).flatten) } := by
  exact ⟨⟨by decide, by decide⟩, by decide⟩

end PermBroker
